import Mathlib

/-!
# Verification of the MetaRec recommendation backend

Shallow embedding of the MetaRec-backend service (service.py, llm_service.py,
agent/agent_executor.py) and proofs about its confirmation-flow state machine,
preference extraction, restaurant filtering, asynchronous task lifecycle,
tool dispatch, intent validation and staged pipeline event stream.

Modelling conventions:
* Python dicts are association lists `List (String × α)`; assignment replaces
  the value of an existing key in place (preserving insertion order) and
  appends otherwise, exactly like CPython dicts.
* Python floats are modelled as rationals `ℚ`; `float(...)` string parsing is
  modelled for the plain decimal forms (`"20"`, `"20.5"`) that the data uses,
  returning `none` (the `except` path) on anything else.
* External effects (LLM API calls, file reads, the planner, the two search
  tools, `random.shuffle`) are oracle parameters of the embedded functions;
  exceptions raised by externals are `Except` values.
* The asyncio cooperative scheduler suspends only at `await`; consequently the
  observable states of a background task are the dict states at suspension
  points, and statement blocks between awaits are atomic.
-/

/-! ## Python dict model (association lists with insertion order) -/

/-- `d[k] = v` on a CPython dict: overwrite in place if the key exists,
append otherwise. -/
def dictSet {α : Type} (k : String) (v : α) : List (String × α) → List (String × α)
  | [] => [(k, v)]
  | (k', v') :: rest => if k = k' then (k, v) :: rest else (k', v') :: dictSet k v rest

/-- `del d[k]` on a CPython dict (no error if absent; the sources guard with
`in` before deleting). -/
def dictDel {α : Type} (k : String) : List (String × α) → List (String × α)
  | [] => []
  | (k', v') :: rest => if k = k' then rest else (k', v') :: dictDel k rest

/-- `d.get(k)` / `d[k]` lookup. -/
def dictGet {α : Type} (k : String) : List (String × α) → Option α
  | [] => none
  | (k', v') :: rest => if k = k' then some v' else dictGet k rest

/-- Number of entries stored under key `k` (CPython dicts always have 0 or 1). -/
def dictCountKey {α : Type} (k : String) (d : List (String × α)) : Nat :=
  (d.map Prod.fst).count k

/-! ## JSON values (`json.loads` output) -/

/-- A parsed JSON value; `jNull` is Python `None`. -/
inductive JVal : Type where
  | jNull : JVal
  | jBool : Bool → JVal
  | jNum : ℚ → JVal
  | jStr : String → JVal
  | jArr : List JVal → JVal
  | jObj : List (String × JVal) → JVal

/-- Python truthiness of a JSON value (`if value:`). -/
def pyTruthy : JVal → Bool
  | JVal.jNull => false
  | JVal.jBool b => b
  | JVal.jNum q => q ≠ 0
  | JVal.jStr s => s ≠ ""
  | JVal.jArr l => !l.isEmpty
  | JVal.jObj l => !l.isEmpty

/-! ## Python string helpers -/

/-- `s.lower()` (ASCII; CJK characters are unaffected in both systems). -/
def toLowerStr (s : String) : String := String.mk (s.toList.map Char.toLower)

/-- Contiguous-sublist test on character lists. -/
def listContainsSub (needle : List Char) : List Char → Bool
  | [] => needle.isEmpty
  | c :: rest => (c :: rest).take needle.length = needle || listContainsSub needle rest

/-- Python `needle in hay` substring test. -/
def strContains (hay needle : String) : Bool := listContainsSub needle.toList hay.toList

/-- Python `str.strip()` whitespace class (the characters occurring in the data). -/
def isPyWs (c : Char) : Bool := c = ' ' || c = '\t' || c = '\n' || c = '\r'

/-- `l.strip()` on a character list. -/
def stripChars (l : List Char) : List Char :=
  ((l.dropWhile isPyWs).reverse.dropWhile isPyWs).reverse

/-- Value of a nonempty decimal digit string (`int(...)`). -/
def digitsToNat (l : List Char) : Nat :=
  l.foldl (fun acc c => acc * 10 + (c.toNat - '0'.toNat)) 0

/-- Python `float(...)` on the plain decimal literals occurring in the data
(`"20"`, `"28.80"`, with surrounding whitespace); `none` models the
`ValueError` path for anything else. -/
def parseDecQ (s : String) : Option ℚ :=
  let l := stripChars s.toList
  let ip := l.takeWhile Char.isDigit
  let rest := l.drop ip.length
  match rest with
  | [] => if ip.isEmpty then none else some ((digitsToNat ip : ℚ))
  | '.' :: fp =>
      if fp.all Char.isDigit && (!ip.isEmpty || !fp.isEmpty) then
        some ((digitsToNat ip : ℚ) + (digitsToNat fp : ℚ) / ((10 : ℚ) ^ fp.length))
      else none
  | _ => none

/-- Python `str.title()`: a cased character is uppercased when the previous
character is not alphabetic, lowercased otherwise. -/
def titleCaseAux : Bool → List Char → List Char
  | _, [] => []
  | prevAlpha, c :: rest =>
      (if prevAlpha then c.toLower else c.toUpper) :: titleCaseAux c.isAlpha rest

def titleCase (s : String) : String := String.mk (titleCaseAux false s.toList)

/-! ## Preferences data model (service.py) -/

/-- `budget_range` sub-dict of a Preferences dict.  `none` is Python `None`. -/
structure BudgetR where
  min : Option Nat
  max : Option Nat
  currency : String
  per : String
deriving DecidableEq

/-- A Preferences dict as built by `extract_preferences_from_query` /
`get_default_preferences`.  `none` models a `None` (null) field. -/
structure Prefs where
  restaurantTypes : List String
  flavorProfiles : List String
  diningPurpose : Option String
  budgetRange : BudgetR
  location : Option String
deriving DecidableEq

/-- `MetaRecService.get_default_preferences`. -/
def get_default_preferences : Prefs :=
  { restaurantTypes := ["any"], flavorProfiles := ["any"], diningPurpose := some "any",
    budgetRange := { min := some 20, max := some 60, currency := "SGD", per := "person" },
    location := some "any" }

/-! ## Preference extraction (`extract_preferences_from_query`) -/

/-- `type_keywords` table (insertion order preserved). -/
def type_keywords : List (String × List String) :=
  [("casual", ["casual", "relaxed", "informal", "everyday"]),
   ("fine-dining", ["fine dining", "fancy", "elegant", "upscale", "romantic", "special occasion"]),
   ("fast-casual", ["fast casual", "quick", "grab and go"]),
   ("street-food", ["street food", "hawker", "food court", "local"]),
   ("buffet", ["buffet", "all you can eat", "unlimited"]),
   ("cafe", ["cafe", "coffee", "brunch", "light meal"])]

/-- `flavor_keywords` table. -/
def flavor_keywords : List (String × List String) :=
  [("spicy", ["spicy", "hot", "chili", "sichuan", "thai", "indian", "korean"]),
   ("savory", ["savory", "umami", "meaty", "rich"]),
   ("sweet", ["sweet", "dessert", "cake", "chocolate"]),
   ("sour", ["sour", "tangy", "citrus", "vinegar"]),
   ("mild", ["mild", "gentle", "subtle", "light"])]

/-- `purpose_keywords` table (the loop breaks at the first match). -/
def purpose_keywords : List (String × List String) :=
  [("date-night", ["date", "romantic", "anniversary", "valentine", "couple"]),
   ("family", ["family", "kids", "children", "parents"]),
   ("business", ["business", "meeting", "client", "professional"]),
   ("solo", ["solo", "alone", "myself", "personal"]),
   ("friends", ["friends", "group", "party", "celebration"]),
   ("celebration", ["celebration", "birthday", "graduation", "promotion"])]

/-- `singapore_areas` list. -/
def singapore_areas : List String :=
  ["orchard", "marina bay", "chinatown", "bugis", "tanjong pagar",
   "clarke quay", "little india", "holland village", "tiong bahru",
   "katong", "joo chiat", "downtown", "cbd", "central"]

/-- `re.search` over a character list: try the matcher at every start
position, leftmost first (Python `re.search` semantics for these
backtracking-free patterns). -/
def searchPos {β : Type} (f : List Char → Option β) : List Char → Option β
  | [] => f []
  | c :: rest =>
      match f (c :: rest) with
      | some r => some r
      | none => searchPos f rest

/-- Match `(\$+)\s*(\d+)` at the current position, yielding the digit group. -/
def matchDollarAt (l : List Char) : Option Nat :=
  let ds := l.takeWhile (· = '$')
  if ds.isEmpty then none
  else
    let rest := (l.drop ds.length).dropWhile isPyWs
    let digs := rest.takeWhile Char.isDigit
    if digs.isEmpty then none else some (digitsToNat digs)

/-- Match `(\d+)\s*to\s*(\d+)` at the current position. -/
def matchToRangeAt (l : List Char) : Option (Nat × Nat) :=
  let d1 := l.takeWhile Char.isDigit
  if d1.isEmpty then none
  else
    match (l.drop d1.length).dropWhile isPyWs with
    | 't' :: 'o' :: r2 =>
        let d2 := (r2.dropWhile isPyWs).takeWhile Char.isDigit
        if d2.isEmpty then none else some (digitsToNat d1, digitsToNat d2)
    | _ => none

/-- Match `<lit>\s*(\d+)` at the current position (`under`/`around`/`budget`). -/
def matchLitNumAt (lit : List Char) (l : List Char) : Option Nat :=
  if l.take lit.length = lit then
    let digs := ((l.drop lit.length).dropWhile isPyWs).takeWhile Char.isDigit
    if digs.isEmpty then none else some (digitsToNat digs)
  else none

/-- The `budget_patterns` loop: the first pattern (in list order) that matches
anywhere in the query decides `(min, max)` and the loop breaks; `$N`,
`around N` and `budget N` set `min = N, max = N + 20`; `A to B` copies the two
groups verbatim; `under N` sets only `max`. -/
def extractBudgetRaw (ql : List Char) : Option (Option Nat × Option Nat) :=
  match searchPos matchDollarAt ql with
  | some n => some (some n, some (n + 20))
  | none =>
    match searchPos matchToRangeAt ql with
    | some (a, b) => some (some a, some b)
    | none =>
      match searchPos (matchLitNumAt "under".toList) ql with
      | some n => some (none, some n)
      | none =>
        match searchPos (matchLitNumAt "around".toList) ql with
        | some n => some (some n, some (n + 20))
        | none =>
          match searchPos (matchLitNumAt "budget".toList) ql with
          | some n => some (some n, some (n + 20))
          | none => none

/-- Python `not x` on an optional int (`None` and `0` are falsy). -/
def natFalsy : Option Nat → Bool
  | none => true
  | some n => n = 0

/-- `MetaRecService.extract_preferences_from_query`.  The per-user store read
(`get_user_preferences`, defaulting) is the `stored` argument; the final
`update_user_preferences` write-back is performed by the caller, which stores
exactly the returned value. -/
def extract_preferences_from_query (query : String) (stored : Prefs) : Prefs :=
  let ql := query.toList.map Char.toLower
  let qs := String.mk ql
  let rts := (type_keywords.filter (fun p => p.2.any (fun kw => strContains qs kw))).map Prod.fst
  let fps := (flavor_keywords.filter (fun p => p.2.any (fun kw => strContains qs kw))).map Prod.fst
  let purpose : Option String :=
    (purpose_keywords.find? (fun p => p.2.any (fun kw => strContains qs kw))).map Prod.fst
  let budget : BudgetR :=
    match extractBudgetRaw ql with
    | some (mn, mx) => { min := mn, max := mx, currency := "SGD", per := "person" }
    | none => { min := none, max := none, currency := "SGD", per := "person" }
  let loc : Option String := (singapore_areas.find? (fun a => strContains qs a)).map titleCase
  let rts := if rts.isEmpty then stored.restaurantTypes else rts
  let fps := if fps.isEmpty then stored.flavorProfiles else fps
  let purpose := match purpose with | none => stored.diningPurpose | some p => some p
  let budget := if natFalsy budget.min && natFalsy budget.max then stored.budgetRange else budget
  let loc := match loc with | none => stored.location | some l => some l
  { restaurantTypes := rts, flavorProfiles := fps, diningPurpose := purpose,
    budgetRange := budget, location := loc }

/-! ## Restaurants and the Filter/Ranker (`filter_restaurants`) -/

/-- The `Restaurant` pydantic model (the fields read by the filter). -/
structure Restaurant where
  id : String := ""
  name : String := ""
  address : Option String := none
  area : Option String := none
  cuisine : Option String := none
  rtype : Option String := none
  location : Option String := none
  rating : Option ℚ := none
  reviewsCount : Option Nat := none
  price : Option String := none
  pricePerPersonSgd : Option String := none
  highlights : Option (List String) := none
  flavorMatch : Option (List String) := none
deriving DecidableEq

/-- Python truthiness of an optional string field. -/
def truthyStrOpt : Option String → Bool
  | some s => s ≠ ""
  | none => false

/-- Python truthiness of an optional list field. -/
def truthyListOpt : Option (List String) → Bool
  | some l => !l.isEmpty
  | none => false

/-- `field and needle in field.lower()` for an optional string field. -/
def optContainsSub (fld : Option String) (needle : String) : Bool :=
  match fld with
  | some s => s ≠ "" && strContains (toLowerStr s) needle
  | none => false

/-- The location filter block of `filter_restaurants`. -/
def locationFilter (loc : Option String) (rs : List Restaurant) : List Restaurant :=
  if truthyStrOpt loc && loc ≠ some "any" then
    let ll := toLowerStr (loc.getD "")
    rs.filter (fun r =>
      optContainsSub r.location ll || optContainsSub r.area ll || optContainsSub r.address ll)
  else rs

/-- Parse `price_per_person_sgd` the way `matches_budget` does: a `-`-range
parses both endpoints, a scalar duplicates; `none` is the `except` path. -/
def parsePps (s : String) : Option (ℚ × ℚ) :=
  if strContains s "-" then
    match s.splitOn "-" with
    | [] => none
    | p0 :: rest =>
        match parseDecQ p0 with
        | none => none
        | some lo =>
            match rest with
            | [] => some (lo, lo)
            | p1 :: _ =>
                match parseDecQ p1 with
                | none => none
                | some hi => some (lo, hi)
  else (parseDecQ s).map (fun v => (v, v))

/-- The `price` string tier mapping (`price_mapping.get(r.price, 0)`). -/
def priceTierValue (p : String) : Nat :=
  if p = "$" then 20 else if p = "$$" then 40
  else if p = "$$$" then 80 else if p = "$$$$" then 150 else 0

/-- `matches_budget` inside `filter_restaurants`. -/
def matches_budget (bmin bmax : Option Nat) (r : Restaurant) : Bool :=
  let parsed :=
    if truthyStrOpt r.pricePerPersonSgd then parsePps (r.pricePerPersonSgd.getD "") else none
  match parsed with
  | some (lo, hi) =>
      !((match bmin with | some m => decide (hi < (m : ℚ)) | none => false) ||
        (match bmax with | some m => decide ((m : ℚ) < lo) | none => false))
  | none =>
      if truthyStrOpt r.price then
        let pv : ℚ := (priceTierValue (r.price.getD "") : ℚ)
        !((match bmin with | some m => decide (pv < (m : ℚ)) | none => false) ||
          (match bmax with | some m => decide ((m : ℚ) < pv) | none => false))
      else true

/-- The budget filter block (applied only when `min` or `max` `is not None`). -/
def budgetFilter (b : BudgetR) (rs : List Restaurant) : List Restaurant :=
  if b.min.isSome || b.max.isSome then rs.filter (matches_budget b.min b.max) else rs

/-- Cuisines counted as spicy by the flavor filter. -/
def spicyCuisines : List String := ["sichuan", "korean", "thai", "indian", "peranakan"]

/-- The spicy-flavor filter block. -/
def flavorFilter (flavors : List String) (qLower : String) (rs : List Restaurant) :
    List Restaurant :=
  if flavors.contains "spicy" || strContains qLower "spicy" || strContains qLower "hot" then
    rs.filter (fun r =>
      (truthyListOpt r.flavorMatch && (r.flavorMatch.getD []).contains "Spicy") ||
      (truthyStrOpt r.cuisine &&
        spicyCuisines.any (fun c => strContains (toLowerStr (r.cuisine.getD "")) c)))
  else rs

/-- `r.price in ["$$$", "$$$$"]`. -/
def highPriceTier (r : Restaurant) : Bool := r.price = some "$$$" || r.price = some "$$$$"

/-- `r.price in ["$", "$$"]`. -/
def lowPriceTier (r : Restaurant) : Bool := r.price = some "$" || r.price = some "$$"

/-- The dining-purpose filter block. -/
def purposeFilter (purpose : Option String) (rs : List Restaurant) : List Restaurant :=
  if purpose = some "date-night" then
    rs.filter (fun r =>
      highPriceTier r && truthyListOpt r.highlights &&
        ((r.highlights.getD []).map toLowerStr).contains "romantic")
  else if purpose = some "family" then
    rs.filter (fun r =>
      (truthyListOpt r.highlights &&
        (r.highlights.getD []).any (fun h => strContains (toLowerStr h) "family")) ||
      lowPriceTier r)
  else if purpose = some "business" then
    rs.filter (fun r =>
      highPriceTier r &&
        (match r.rating with | some q => decide (q ≠ 0) && decide ((4 : ℚ) ≤ q) | none => false))
  else rs

/-- The four filter blocks of `filter_restaurants`, applied unconditionally in
source order: location, budget, spicy flavor, purpose.  (The `cuisine_keywords`
table in the source is defined but never used.) -/
def applyFilters (query : String) (p : Prefs) (rs : List Restaurant) : List Restaurant :=
  let ql := toLowerStr query
  purposeFilter p.diningPurpose
    (flavorFilter p.flavorProfiles ql
      (budgetFilter p.budgetRange
        (locationFilter p.location rs)))

/-- `x.rating or 0` sort key. -/
def ratingKey (r : Restaurant) : ℚ := r.rating.getD 0

/-- Stable insertion for descending sort by rating: an element is placed
before every later element of equal key, matching Python's stable
`sort(key=..., reverse=True)`. -/
def insertByRating (x : Restaurant) : List Restaurant → List Restaurant
  | [] => [x]
  | y :: ys =>
      if ratingKey y ≤ ratingKey x then x :: y :: ys else y :: insertByRating x ys

/-- `filtered.sort(key=lambda x: x.rating or 0, reverse=True)` (stable). -/
def sortByRatingDesc : List Restaurant → List Restaurant
  | [] => []
  | x :: xs => insertByRating x (sortByRatingDesc xs)

/-- `MetaRecService.filter_restaurants`.  `random.shuffle` is the oracle
parameter `shuffle` (assumed a permutation where a theorem needs it). -/
def filter_restaurants (shuffle : List Restaurant → List Restaurant)
    (query : String) (p : Prefs) (restaurants : List Restaurant) : List Restaurant :=
  let filtered := applyFilters query p restaurants
  let filtered := if filtered.isEmpty then restaurants.take 3 else filtered
  let sorted := sortByRatingDesc filtered
  if 6 < sorted.length then
    sorted.take 3 ++ (shuffle (sorted.drop 3)).take 3
  else
    sorted.take 6

/-- Modelled from the spec (for comparison with the code): the filter pipeline
the C2 claim describes, in which each individual filter is skipped when it
would eliminate all remaining candidates, and the `first 3` fallback fires
only when every filter empties the set. -/
def applyFiltersPerFilterFallback (query : String) (p : Prefs) (rs : List Restaurant) :
    List Restaurant :=
  let ql := toLowerStr query
  let step := fun (cur : List Restaurant) (f : List Restaurant → List Restaurant) =>
    let nxt := f cur
    if nxt.isEmpty then cur else nxt
  step (step (step (step rs (locationFilter p.location)) (budgetFilter p.budgetRange))
    (flavorFilter p.flavorProfiles ql)) (purposeFilter p.diningPurpose)

/-- Modelled from the spec: `filter_restaurants` as the C2 claim describes it
(per-filter fallback), with the same final sort/truncate logic. -/
def filter_restaurants_claimC2 (shuffle : List Restaurant → List Restaurant)
    (query : String) (p : Prefs) (restaurants : List Restaurant) : List Restaurant :=
  let filtered := applyFiltersPerFilterFallback query p restaurants
  let filtered := if filtered.isEmpty then restaurants.take 3 else filtered
  let sorted := sortByRatingDesc filtered
  if 6 < sorted.length then
    sorted.take 3 ++ (shuffle (sorted.drop 3)).take 3
  else
    sorted.take 6

/-! ## Tool dispatch (`agent_executor.dispatch_tool_call`) -/

/-- The normalized envelope built by `dispatch_tool_call`.  In the Python dict
the `output` and `error` keys are absent until written; both absent and
written-`None` are modelled as `none`. -/
structure ToolResult where
  tool : String
  inputParams : List (String × String)
  output : Option (List JVal)
  success : Bool
  error : Option String

/-- `dispatch_tool_call(name, parameters)`.  The two search tools are external
collaborators, passed as oracles that either return `output` (possibly `None`)
or raise (`Except.error`); the surrounding `try/except` converts a raise into
a failed record. -/
def dispatch_tool_call
    (gmapSearch xhsSearch : String → Except String (Option (List JVal)))
    (name : String) (parameters : List (String × String)) : ToolResult :=
  let query := (dictGet "query" parameters).getD ""
  if name = "gmap.search" then
    match gmapSearch query with
    | Except.ok output =>
        { tool := name, inputParams := parameters, output := output,
          success := output.isSome, error := none }
    | Except.error e =>
        { tool := name, inputParams := parameters, output := none,
          success := false, error := some e }
  else if name = "xhs.search" then
    match xhsSearch query with
    | Except.ok output =>
        { tool := name, inputParams := parameters, output := output,
          success := output.isSome, error := none }
    | Except.error e =>
        { tool := name, inputParams := parameters, output := none,
          success := false, error := some e }
  else
    { tool := name, inputParams := parameters, output := none,
      success := false, error := some ("Unknown tool: " ++ name) }

/-! ## Asynchronous task lifecycle (`create_task`, `process_recommendation_task`,
`get_task_status`) -/

/-- The payload computed by `get_recommendations` and stored in the task's
`result` field (parametric data — the value itself is an input of the task
model). -/
structure RecResult where
  restaurants : List Restaurant
  confidence : ℚ
deriving DecidableEq

/-- A value stored in a task dict. -/
inductive TaskVal : Type where
  | tvNull : TaskVal
  | tvStr : String → TaskVal
  | tvNat : Nat → TaskVal
  | tvRes : RecResult → TaskVal
deriving DecidableEq

/-- A task record: a Python dict from field name to value. -/
abbrev TaskRec := List (String × TaskVal)

/-- The record written by `create_task` (status `pending`; note the
`task_id`, `result` and `error` keys are present, the latter two with value
`None`). -/
def pendingRecord (taskId : String) : TaskRec :=
  [("task_id", TaskVal.tvStr taskId), ("status", TaskVal.tvStr "pending"),
   ("progress", TaskVal.tvNat 0), ("message", TaskVal.tvStr "Task created"),
   ("result", TaskVal.tvNull), ("error", TaskVal.tvNull)]

/-- A `progress`/`message` checkpoint pair of assignments. -/
def checkpointUpd (p : Nat) (m : String) (rec : TaskRec) : TaskRec :=
  dictSet "message" (TaskVal.tvStr m) (dictSet "progress" (TaskVal.tvNat p) rec)

/-- The wholesale replacement at the top of `process_recommendation_task`:
a fresh three-key dict. -/
def taskState1 : TaskRec :=
  [("status", TaskVal.tvStr "processing"), ("progress", TaskVal.tvNat 10),
   ("message", TaskVal.tvStr "Analyzing your requirements...")]

def taskState2 : TaskRec := checkpointUpd 30 "Extracting preferences..." taskState1

def taskState3 : TaskRec := checkpointUpd 50 "Searching restaurant database..." taskState2

def taskState4 : TaskRec := checkpointUpd 70 "Applying filters..." taskState3

def taskState5 : TaskRec := checkpointUpd 90 "Generating recommendations..." taskState4

/-- The completion block (status, progress, message, result assignments run
atomically — no `await` separates them). -/
def taskStateDone (res : RecResult) : TaskRec :=
  dictSet "result" (TaskVal.tvRes res)
    (dictSet "message" (TaskVal.tvStr "Recommendations ready!")
      (dictSet "progress" (TaskVal.tvNat 100)
        (dictSet "status" (TaskVal.tvStr "completed") taskState5)))

/-- The `except` handler of `process_recommendation_task`: status, error and
message assignments applied to whatever record the task currently holds. -/
def taskStateError (s : TaskRec) (msg : String) : TaskRec :=
  dictSet "message" (TaskVal.tvStr ("Error: " ++ msg))
    (dictSet "error" (TaskVal.tvStr msg)
      (dictSet "status" (TaskVal.tvStr "error") s))

/-- The five observable `processing` states, one per suspension point
(the four 1-second sleeps and the awaited `get_recommendations` call). -/
def processingStates : List TaskRec :=
  [taskState1, taskState2, taskState3, taskState4, taskState5]

/-- Final record of `process_recommendation_task`.  `res` is the
`get_recommendations` payload; `failAt = some k` models an exception raised at
the `k`-th suspension point (the only statements that can raise), `none` the
exception-free run. -/
def process_recommendation_task (res : RecResult) (failAt : Option (Fin 5))
    (errMsg : String) : TaskRec :=
  match failAt with
  | none => taskStateDone res
  | some k => taskStateError (processingStates.getD k.val taskState1) errMsg

/-- The full sequence of observable task records, from the `pending` record
written by `create_task` through each suspension point to the terminal
record. -/
def task_observable_trace (taskId : String) (res : RecResult)
    (failAt : Option (Fin 5)) (errMsg : String) : List TaskRec :=
  match failAt with
  | none => pendingRecord taskId :: (processingStates ++ [taskStateDone res])
  | some k =>
      pendingRecord taskId ::
        (processingStates.take (k.val + 1) ++
          [taskStateError (processingStates.getD k.val taskState1) errMsg])

/-- `MetaRecService.get_task_status`: a pure read (`self.tasks.get(task_id)`). -/
def get_task_status (tasks : List (String × TaskRec)) (taskId : String) : Option TaskRec :=
  dictGet taskId tasks

/-- The `status` field of a task record. -/
def taskStatus (rec : TaskRec) : Option TaskVal := dictGet "status" rec

/-- A record whose status is `completed` or `error`. -/
def isTerminal (rec : TaskRec) : Bool :=
  taskStatus rec = some (TaskVal.tvStr "completed") ||
    taskStatus rec = some (TaskVal.tvStr "error")

/-! ## Staged agent pipeline (`agent_executor.execute_offline_agent` /
`execute_online_agent`) -/

/-- One yielded progress event.  The optional fields default to absent; the
terminal `stage="completed"` event additionally carries the full
plan/executions/summary payload in the source, which does not affect the
ordering claims and is not replicated here. -/
structure PipelineEvent where
  stage : String
  stageNumber : Nat
  status : String
  message : String
  tool : Option String := none
  progressStr : Option String := none
  queryStr : Option String := none
  resultsCount : Option Nat := none
  successFlag : Option Bool := none
  tools : Option (List String) := none
  summaryLength : Option Nat := none

/-- One planned tool call (`{name, parameters}` from `parse_planner_output`;
names are modelled as strings — the planner contract supplies tool names). -/
structure PlanCall where
  name : String
  parameters : List (String × String)

/-- One cached execution row of an offline run (`{tool, input, output, ...}`). -/
structure ExecRecord where
  tool : String
  inputQuery : String
  output : JVal

/-- A cached offline artifact (after the random-fallback cache resolution,
which is file I/O and modelled as already resolved). -/
structure CachedRun where
  userInput : Option String
  planCalls : List PlanCall
  executions : List ExecRecord

/-- `str.replace(pat, sub)`: replace all non-overlapping occurrences,
leftmost first. -/
def replaceSub (pat sub : List Char) (l : List Char) : List Char :=
  match l with
  | [] => []
  | c :: rest =>
      if h : pat ≠ [] ∧ (c :: rest).take pat.length = pat then
        sub ++ replaceSub pat sub ((c :: rest).drop pat.length)
      else c :: replaceSub pat sub rest
termination_by l.length
decreasing_by
  · have hp : 1 ≤ pat.length := by
      cases pat with
      | nil => exact absurd rfl h.1
      | cons a b => simp
    simp only [List.length_drop, List.length_cons]
    omega
  · simp

def strReplace (s pat sub : String) : String :=
  String.mk (replaceSub pat.toList sub.toList s.toList)

/-- `name.replace("gmap.search", "Google Maps").replace("xhs.search", "Xiaohongshu")`. -/
def toolDisplay (name : String) : String :=
  strReplace (strReplace name "gmap.search" "Google Maps") "xhs.search" "Xiaohongshu"

/-- `len(output) if isinstance(output, list) else 0`. -/
def jvalResultsCount : JVal → Nat
  | JVal.jArr l => l.length
  | _ => 0

/-- `"Selected tools: ..."` planning-completed message. -/
def selectedToolsMsg (toolNames : List String) : String :=
  let disp := String.intercalate ", " (toolNames.map toolDisplay)
  "Selected tools: " ++ (if disp = "" then "None" else disp)

/-- The `in_progress` event yielded for the `idx`-th cached execution row in
offline mode. -/
def offlineExecEvent (total : Nat) (p : Nat × ExecRecord) : PipelineEvent :=
  { stage := "execution", stageNumber := 2, status := "in_progress",
    message := "Executing: " ++ toolDisplay p.2.tool, tool := some p.2.tool,
    progressStr := some (toString p.1 ++ "/" ++ toString total),
    queryStr := some p.2.inputQuery,
    resultsCount := some (jvalResultsCount p.2.output) }

/-- `execute_offline_agent`: the sequence of yielded events.  `cached` is the
resolved cache artifact and `summaryCache` the resolved cached summary string
(both file reads; every failure path inside them is caught and yields the
empty cache / `None`, so stage 3 always completes in offline mode). -/
def execute_offline_agent (cached : CachedRun) (summaryCache : Option String) :
    List PipelineEvent :=
  let planCalls := cached.planCalls
  let executions := cached.executions
  { stage := "planning", stageNumber := 1, status := "started", message := "Planning tools..." } ::
  { stage := "planning", stageNumber := 1, status := "completed",
    message := selectedToolsMsg (planCalls.map (fun c => c.name)),
    tools := some (planCalls.map (fun c => c.name)) } ::
  { stage := "execution", stageNumber := 2, status := "started", message := "Executing tools..." } ::
  ((List.enumFrom 1 executions).map (offlineExecEvent executions.length) ++
   [{ stage := "execution", stageNumber := 2, status := "completed",
      message := "Tool execution completed" },
    { stage := "summary", stageNumber := 3, status := "started",
      message := "Generating recommendations summary..." },
    { stage := "summary", stageNumber := 3, status := "completed",
      message := "Recommendations summary completed",
      summaryLength := some (summaryCache.getD "").length },
    { stage := "completed", stageNumber := 3, status := "completed",
      message := "All stages completed" }])

/-- The two `in_progress` events yielded around the `idx`-th dispatched call
in online mode.  (The `try/except` around the dispatch in the source cannot
fire: `dispatch_tool_call` catches all exceptions internally, so the stage-2
`error` branch is unreachable.) -/
def onlineCallEvents (gmapSearch xhsSearch : String → Except String (Option (List JVal)))
    (total : Nat) (p : Nat × PlanCall) : List PipelineEvent :=
  let er := dispatch_tool_call gmapSearch xhsSearch p.2.name p.2.parameters
  let rc := match er.output with | some l => l.length | none => 0
  [{ stage := "execution", stageNumber := 2, status := "in_progress",
     message := "Executing: " ++ toolDisplay p.2.name, tool := some p.2.name,
     progressStr := some (toString p.1 ++ "/" ++ toString total),
     queryStr := some ((dictGet "query" p.2.parameters).getD "") },
   { stage := "execution", stageNumber := 2, status := "in_progress",
     message := "Completed: " ++ toolDisplay p.2.name, tool := some p.2.name,
     progressStr := some (toString p.1 ++ "/" ++ toString total),
     queryStr := some ((dictGet "query" p.2.parameters).getD ""),
     resultsCount := some rc, successFlag := some er.success }]

/-- `execute_online_agent`: the sequence of yielded events.  `planner` models
`run_demo` + `parse_planner_output` (raising is `Except.error`); `summarizer`
models `summarize_recommendations` plus content extraction (an absent/empty
choice list yields `none`). -/
def execute_online_agent (planner : Except String (List PlanCall))
    (gmapSearch xhsSearch : String → Except String (Option (List JVal)))
    (summarizer : Except String (Option String)) : List PipelineEvent :=
  match planner with
  | Except.error e =>
      [{ stage := "planning", stageNumber := 1, status := "started",
         message := "Planning tools..." },
       { stage := "planning", stageNumber := 1, status := "error",
         message := "Planning failed: " ++ e }]
  | Except.ok planCalls =>
      { stage := "planning", stageNumber := 1, status := "started",
        message := "Planning tools..." } ::
      { stage := "planning", stageNumber := 1, status := "completed",
        message := selectedToolsMsg (planCalls.map (fun c => c.name)),
        tools := some (planCalls.map (fun c => c.name)) } ::
      { stage := "execution", stageNumber := 2, status := "started",
        message := "Executing tools..." } ::
      ((List.enumFrom 1 planCalls).flatMap
          (onlineCallEvents gmapSearch xhsSearch planCalls.length) ++
        ({ stage := "execution", stageNumber := 2, status := "completed",
           message := "Tool execution completed" } ::
         { stage := "summary", stageNumber := 3, status := "started",
           message := "Generating recommendations summary..." } ::
         (match summarizer with
          | Except.ok s =>
              [{ stage := "summary", stageNumber := 3, status := "completed",
                 message := "Recommendations summary completed",
                 summaryLength := some (s.getD "").length },
               { stage := "completed", stageNumber := 3, status := "completed",
                 message := "All stages completed" }]
          | Except.error e =>
              [{ stage := "summary", stageNumber := 3, status := "error",
                 message := "Summary generation failed: " ++ e }])))

/-- The `(stage_number, status)` projection grouped by stage number. -/
def statusesOfStageNum (evs : List PipelineEvent) (n : Nat) : List String :=
  (evs.filter (fun e => e.stageNumber == n)).map (fun e => e.status)

/-- The statuses of the events of one named stage, in order. -/
def statusesOfStage (evs : List PipelineEvent) (st : String) : List String :=
  (evs.filter (fun e => e.stage == st)).map (fun e => e.status)

/-- After `started`: zero or more `in_progress` then exactly one terminal
`completed`/`error` event and nothing after it. -/
def stageTailOk : List String → Bool
  | [] => false
  | [s] => s == "completed" || s == "error"
  | s :: t :: rest => s == "in_progress" && stageTailOk (t :: rest)

/-- `started → (in_progress)* → (completed | error)`, or the stage is absent. -/
def stagePatternOk : List String → Bool
  | [] => true
  | s :: rest => s == "started" && stageTailOk rest

def nonDecreasingFrom (prev : Nat) : List Nat → Bool
  | [] => true
  | x :: xs => decide (prev ≤ x) && nonDecreasingFrom x xs

/-- The sequence never decreases. -/
def nonDecreasing : List Nat → Bool
  | [] => true
  | x :: xs => nonDecreasingFrom x xs

/-- The C7 claim, read with stages identified by `stage_number` (statuses of
each stage number must follow `started → in_progress* → exactly one terminal
event`): this is what "within each stage the statuses follow the pattern"
asserts for the emitted run. -/
def claimC7EventOrdering (evs : List PipelineEvent) : Bool :=
  nonDecreasing (evs.map (fun e => e.stageNumber)) &&
  [1, 2, 3].all (fun n => stagePatternOk (statusesOfStageNum evs n))

/-- The event-stream invariant the code actually maintains: stage numbers
never decrease; the `planning`, `execution` and `summary` stages each follow
`started → in_progress* → exactly one terminal completed/error event`; and
the only other events are terminal `stage="completed"` markers (status
`completed`, stage number 3). -/
def pipelineEventsWellFormed (evs : List PipelineEvent) : Prop :=
  nonDecreasing (evs.map (fun e => e.stageNumber)) = true ∧
  stagePatternOk (statusesOfStage evs "planning") = true ∧
  stagePatternOk (statusesOfStage evs "execution") = true ∧
  stagePatternOk (statusesOfStage evs "summary") = true ∧
  ((evs.filter (fun e => e.stage == "completed")).all
    (fun e => e.status == "completed" && e.stageNumber == 3)) = true

/-! ## LLM intent analysis (`llm_service.analyze_user_message`) -/

/-- One conversation-history message. -/
structure ChatMsg where
  role : String
  content : String

/-- `detect_language`: `"zh"` iff the text contains a CJK character in
`\u4e00`–`\u9fff`. -/
def detect_language (text : String) : String :=
  if text.toList.any (fun c => 0x4e00 ≤ c.toNat && c.toNat ≤ 0x9fff) then "zh" else "en"

/-- The language detection at the top of `analyze_user_message`: the message's
language, overridden to `"zh"` when any of the last three history messages is
Chinese. -/
def detectLanguageWithHistory (message : String) (history : List ChatMsg) : String :=
  if detect_language message == "zh" ||
      (history.drop (history.length - 3)).any (fun m => detect_language m.content == "zh")
  then "zh" else "en"

/-- The `LLMResponse` pydantic model.  `preferences`/`profileUpdates` are JSON
objects or `None`. -/
structure LLMResponse where
  intent : String
  reply : String
  confidence : ℚ
  preferences : Option (List (String × JVal))
  profileUpdates : Option (List (String × JVal))

/-- The apology used by the `except Exception` handler. -/
def apiErrorReply (language : String) : String :=
  if language = "en" then "Sorry, the service is temporarily unavailable. Please try again later."
  else "抱歉，服务暂时不可用，请稍后再试。"

/-- `default_reply` when the model JSON lacks a `reply` field. -/
def defaultReply (language : String) : String :=
  if language = "en" then "Sorry, I didn't understand your question."
  else "抱歉，我没有理解您的问题。"

/-- Keyword lists of the non-JSON fallback. -/
def queryKeywordsZh : List String := ["推荐", "餐厅", "吃饭", "美食", "找", "想吃", "推荐一下"]

def queryKeywordsEn : List String :=
  ["recommend", "restaurant", "food", "dining", "find", "looking for", "want", "eat"]

/-- The `json.JSONDecodeError` fallback inside the `try`: keyword matching
over the model's raw reply text decides between `query` and `chat`. -/
def keywordFallbackResponse (language content : String) : LLMResponse :=
  let contentLower := toLowerStr content
  let kws := if language = "zh" then queryKeywordsZh else queryKeywordsEn
  let isQuery := kws.any (fun kw => strContains contentLower kw)
  { intent := if isQuery then "query" else "chat", reply := content,
    confidence := if isQuery then 7/10 else 8/10,
    preferences := none, profileUpdates := none }

/-- The set of intents legal in each conversation state (`llm_service.py`
lines 290–297). -/
def legalIntents (isInQueryFlow : Bool) : List String :=
  if isInQueryFlow then ["confirmation_yes", "confirmation_no", "query", "chat"]
  else ["query", "chat"]

/-- The intent-validation step: any intent outside the legal set for the
current state is coerced to `"chat"`. -/
def validateIntent (isInQueryFlow : Bool) (intent : String) : String :=
  if intent ∈ legalIntents isInQueryFlow then intent else "chat"

/-- `result.get("intent", "chat")`: a missing key defaults to `"chat"`; a
non-string value fails the membership test exactly like an unknown label, so
it is mapped to a sentinel outside every legal set. -/
def rawIntentOf (obj : List (String × JVal)) : String :=
  match dictGet "intent" obj with
  | some (JVal.jStr s) => s
  | some _ => "__nonstring__"
  | none => "chat"

/-- The `validated_prefs` dict (`llm_service.py` lines 307–317): `.get` with a
default fills absent keys only — a key present with JSON `null` stays null. -/
def validatedPrefFields (fields : List (String × JVal)) : List (String × JVal) :=
  [("restaurant_types", (dictGet "restaurant_types" fields).getD (JVal.jArr [JVal.jStr "any"])),
   ("flavor_profiles", (dictGet "flavor_profiles" fields).getD (JVal.jArr [JVal.jStr "any"])),
   ("dining_purpose", (dictGet "dining_purpose" fields).getD (JVal.jStr "any")),
   ("budget_range", (dictGet "budget_range" fields).getD (JVal.jObj
      [("min", JVal.jNum 20), ("max", JVal.jNum 60), ("currency", JVal.jStr "SGD")])),
   ("location", (dictGet "location" fields).getD (JVal.jStr "any"))]

/-- The preferences block: which value ends up in `LLMResponse.preferences`,
or a raised error (non-dict values reach the pydantic constructor and fail
validation, landing in the outer `except Exception`). -/
def extractPreferences (intent : String) (obj : List (String × JVal)) :
    Except String (Option (List (String × JVal))) :=
  let rawVal := dictGet "preferences" obj
  let hasKey := rawVal.isSome
  if (intent = "query" ∨ (intent = "confirmation_no" ∧ hasKey = true ∧
        pyTruthy (rawVal.getD JVal.jNull) = true)) ∧ hasKey = true then
    let p := rawVal.getD JVal.jNull
    if pyTruthy p then
      match p with
      | JVal.jObj fields => Except.ok (some (validatedPrefFields fields))
      | _ => Except.error "preferences is not a dict"
    else
      match p with
      | JVal.jNull => Except.ok none
      | JVal.jObj fields => Except.ok (some fields)
      | _ => Except.error "preferences is not a dict"
  else Except.ok none

/-- The profile-updates block (`llm_service.py` lines 321–334). -/
def extractProfileUpdates (obj : List (String × JVal)) :
    Except String (Option (List (String × JVal))) :=
  match dictGet "profile_updates" obj with
  | none => Except.ok none
  | some pu =>
      if pyTruthy pu then
        match pu with
        | JVal.jObj fields =>
            let cleaned := fields.filter (fun kv =>
              pyTruthy kv.2 && (match kv.2 with | JVal.jObj l => !l.isEmpty | _ => false))
            if cleaned.isEmpty then Except.ok none else Except.ok (some cleaned)
        | _ => Except.error "profile_updates is not a dict"
      else Except.ok none

/-- `result.get("reply", default_reply)` through the pydantic `str` field. -/
def extractReply (obj : List (String × JVal)) (language : String) : Except String String :=
  match dictGet "reply" obj with
  | none => Except.ok (defaultReply language)
  | some (JVal.jStr s) => Except.ok s
  | some _ => Except.error "reply is not a string"

/-- Python `float(...)` on a JSON value (for `confidence`). -/
def jvalToFloat : JVal → Except String ℚ
  | JVal.jNum q => Except.ok q
  | JVal.jBool b => Except.ok (if b then 1 else 0)
  | JVal.jStr s =>
      match parseDecQ s with
      | some q => Except.ok q
      | none => Except.error "could not convert string to float"
  | _ => Except.error "float() argument"

/-- `float(result.get("confidence", 0.8))`. -/
def extractConfidence (obj : List (String × JVal)) : Except String ℚ :=
  match dictGet "confidence" obj with
  | none => Except.ok (8/10)
  | some v => jvalToFloat v

/-- The body of the inner `try` once `json.loads` returned an object: any
raised error (bad reply/confidence/preferences/profile types) propagates to
the outer `except Exception` handler. -/
def buildFromJson (isInQueryFlow : Bool) (language : String)
    (obj : List (String × JVal)) : Except String LLMResponse :=
  let intent := validateIntent isInQueryFlow (rawIntentOf obj)
  match extractPreferences intent obj with
  | Except.error e => Except.error e
  | Except.ok preferences =>
      match extractProfileUpdates obj with
      | Except.error e => Except.error e
      | Except.ok profileUpdates =>
          match extractReply obj language with
          | Except.error e => Except.error e
          | Except.ok reply =>
              match extractConfidence obj with
              | Except.error e => Except.error e
              | Except.ok confidence =>
                  Except.ok { intent := intent, reply := reply, confidence := confidence,
                              preferences := preferences, profileUpdates := profileUpdates }

/-- The `except Exception` apology response (confidence 0.3). -/
def apiErrorResponse (language : String) : LLMResponse :=
  { intent := "chat", reply := apiErrorReply language, confidence := 3/10,
    preferences := none, profileUpdates := none }

/-- `llm_service.analyze_user_message`.  `api` is the chat-completion call
(`Except.error` = raised exception), `jsonLoads` the `json.loads` oracle
(`none` = `JSONDecodeError`).  The outer `except json.JSONDecodeError` branch
(confidence 0.5) is dead code: the inner `try` already catches every JSON
decode error, so it is not modelled.  A successful parse to a non-object makes
`result.get` raise `AttributeError`, landing in `except Exception`. -/
def analyze_user_message (jsonLoads : String → Option JVal)
    (message : String) (history : List ChatMsg) (isInQueryFlow : Bool)
    (api : Except String String) : LLMResponse :=
  let language := detectLanguageWithHistory message history
  match api with
  | Except.error _ => apiErrorResponse language
  | Except.ok content =>
      match jsonLoads content with
      | none => keywordFallbackResponse language content
      | some (JVal.jObj fields) =>
          match buildFromJson isInQueryFlow language fields with
          | Except.ok r => r
          | Except.error _ => apiErrorResponse language
      | some _ => apiErrorResponse language

/-! ## Confirmation flow state machine
(`handle_user_request_async`, `_handle_confirmation_yes`,
`create_confirmation_request`) -/

/-- A `user_contexts` entry: pending preferences, the query that produced
them, and the exact confirmation message shown (plus a timestamp in the
source, irrelevant to the flow). -/
structure ConversationContext where
  preferences : Prefs
  originalQuery : String
  confirmationMessage : String

/-- `dining_habits.typical_budget` from a stored user profile: a number or a
partial budget dict (present keys overwrite on `dict.update`). -/
inductive TypicalBudget : Type where
  | tbNum : Nat → TypicalBudget
  | tbObj : Option Nat → Option Nat → TypicalBudget

/-- The profile fields `handle_user_request_async` reads. -/
structure UserProfile where
  typicalBudget : Option TypicalBudget
  profileLocation : Option String

/-- Python truthiness of `typical_budget` (0 and the empty dict are falsy). -/
def tbTruthy : TypicalBudget → Bool
  | TypicalBudget.tbNum n => n ≠ 0
  | TypicalBudget.tbObj mn mx => mn.isSome || mx.isSome

/-- The profile-based fill-in applied to classifier preferences: when the
budget is still the 20–60 default, `typical_budget` overrides it
(`int(tb*0.8)`/`int(tb*1.2)`, floats modelled exactly on the naturals as
`4n/5`/`6n/5` floored); when the location is `"any"`, the profile location is
used. -/
def fillFromProfile (p : Prefs) (profile : Option UserProfile) : Prefs :=
  match profile with
  | none => p
  | some prof =>
      let p1 :=
        if p.budgetRange.min = some 20 ∧ p.budgetRange.max = some 60 then
          match prof.typicalBudget with
          | some tb =>
              if tbTruthy tb then
                match tb with
                | TypicalBudget.tbNum n =>
                    { p with budgetRange :=
                        { p.budgetRange with min := some ((4 * n) / 5), max := some ((6 * n) / 5) } }
                | TypicalBudget.tbObj mn mx =>
                    { p with budgetRange :=
                        { p.budgetRange with
                          min := (match mn with | some v => some v | none => p.budgetRange.min),
                          max := (match mx with | some v => some v | none => p.budgetRange.max) } }
              else p
          | none => p
        else p
      if p1.location = some "any" ∧ truthyStrOpt prof.profileLocation then
        { p1 with location := prof.profileLocation }
      else p1

/-- The in-memory service state the confirmation flow mutates:
`self.user_contexts` and `self.user_preferences`. -/
structure ServiceState where
  userContexts : List (String × ConversationContext)
  userPreferences : List (String × Prefs)

/-- Responses of `handle_user_request_async` (the fields the flow decides). -/
inductive ServiceResponse : Type where
  | confirmation : Prefs → String → ServiceResponse
  | taskCreated : Prefs → ServiceResponse
  | llmReply : String → Option Prefs → ServiceResponse
  | noResponse : ServiceResponse

/-- `get_user_preferences`: read with default, writing the default back on
first access. -/
def get_user_preferences (store : List (String × Prefs)) (userId : String) :
    Prefs × List (String × Prefs) :=
  match dictGet userId store with
  | some p => (p, store)
  | none => (get_default_preferences, dictSet userId get_default_preferences store)

/-- `update_user_preferences`: the per-field merge overwrites every one of the
five keys, all of which a structured Preferences value supplies, i.e. a whole
replacement of the user's entry. -/
def update_user_preferences (store : List (String × Prefs)) (userId : String) (p : Prefs) :
    List (String × Prefs) :=
  dictSet userId p store

/-- `extract_preferences_from_query` as called by the service: reads the
stored preferences (defaulting) and writes the extracted result back. -/
def extract_preferences_service (store : List (String × Prefs)) (userId query : String) :
    Prefs × List (String × Prefs) :=
  let rd := get_user_preferences store userId
  let p := extract_preferences_from_query query rd.1
  (p, dictSet userId p rd.2)

/-- `MetaRecService.handle_user_request_async` (the LLM-driven flow; the
legacy rule-based fallback of the outer `except` is a separate code path).
State AWAITING_CONFIRMATION is, by definition in the source, the presence of
a `user_contexts` entry (`is_in_query_flow = user_id in self.user_contexts`).
`llmIntent`/`llmPrefs`/`llmReply` are the validated classifier output
(`analyze_user_message`), `genMsg` the confirmation-message generator's output
(LLM with template fallback — both yield a string), `userProfile` the stored
profile.  Profile persistence (`save_user_profile`) is external I/O and not
part of the flow state. -/
def handle_user_request_async (st : ServiceState) (userId query : String)
    (userProfile : Option UserProfile) (llmIntent : String) (llmPrefs : Option Prefs)
    (llmReply genMsg : String) : ServiceState × ServiceResponse :=
  let ctx := dictGet userId st.userContexts
  let isInQueryFlow := ctx.isSome
  let originalQuery := match ctx with
    | some c => c.originalQuery
    | none => query
  if isInQueryFlow then
    if llmIntent = "confirmation_yes" then
      match ctx with
      | some c =>
          ({ st with userContexts := dictDel userId st.userContexts },
            ServiceResponse.taskCreated c.preferences)
      | none =>
          -- `_handle_confirmation_yes` fallback for a missing context
          -- (unreachable from this guard; mirrored from the source)
          let ps := extract_preferences_service st.userPreferences userId query
          ({ st with userPreferences := ps.2 }, ServiceResponse.taskCreated ps.1)
    else if llmIntent = "confirmation_no" then
      ({ st with userContexts := dictDel userId st.userContexts },
        ServiceResponse.llmReply llmReply (ctx.map (fun c => c.preferences)))
    else if llmIntent = "query" then
      match llmPrefs with
      | some lp =>
          let newPrefs := fillFromProfile lp userProfile
          ({ userContexts :=
               dictSet userId ⟨newPrefs, originalQuery, genMsg⟩ st.userContexts,
             userPreferences := update_user_preferences st.userPreferences userId newPrefs },
            ServiceResponse.confirmation newPrefs genMsg)
      | none =>
          let ps := extract_preferences_service st.userPreferences userId query
          ({ userContexts :=
               dictSet userId ⟨ps.1, originalQuery, genMsg⟩ st.userContexts,
             userPreferences := ps.2 },
            ServiceResponse.confirmation ps.1 genMsg)
    else if llmIntent = "chat" then
      ({ st with userContexts := dictDel userId st.userContexts },
        ServiceResponse.llmReply llmReply (ctx.map (fun c => c.preferences)))
    else
      -- an in-flow intent outside the four labels falls off the end of the
      -- Python function (implicit None), mutating nothing
      (st, ServiceResponse.noResponse)
  else
    if llmIntent = "query" then
      match llmPrefs with
      | some lp =>
          let prefs := fillFromProfile lp userProfile
          ({ userContexts := dictSet userId ⟨prefs, query, genMsg⟩ st.userContexts,
             userPreferences := update_user_preferences st.userPreferences userId prefs },
            ServiceResponse.confirmation prefs genMsg)
      | none =>
          let ps := extract_preferences_service st.userPreferences userId query
          ({ userContexts := dictSet userId ⟨ps.1, query, genMsg⟩ st.userContexts,
             userPreferences := ps.2 },
            ServiceResponse.confirmation ps.1 genMsg)
    else
      (st, ServiceResponse.llmReply llmReply llmPrefs)

/-- An example service state with one user awaiting confirmation. -/
def exampleAwaitingState : ServiceState :=
  { userContexts := [("u", ⟨get_default_preferences, "q0", "m0"⟩)],
    userPreferences := [("u", get_default_preferences)] }

/-- Concrete restaurants for the C2 scenario: all in Orchard, so a Chinatown
location filter eliminates every candidate. -/
def c2Restaurants : List Restaurant :=
  [{ id := "r1", name := "A", area := some "Orchard" },
   { id := "r2", name := "B", area := some "Orchard" },
   { id := "r3", name := "C", area := some "Orchard" },
   { id := "r4", name := "D", area := some "Orchard" }]

/-- Concrete preferences for the C2 scenario: only the location filter is
active. -/
def c2Prefs : Prefs :=
  { restaurantTypes := ["any"], flavorProfiles := ["any"], diningPurpose := some "any",
    budgetRange := { min := none, max := none, currency := "SGD", per := "person" },
    location := some "Chinatown" }

/-! ## Theorems -/

/-! ### Dictionary lemmas -/

theorem dictSet_keys {α : Type} (k : String) (v : α) (d : List (String × α)) :
    (dictSet k v d).map Prod.fst =
      if k ∈ d.map Prod.fst then d.map Prod.fst else d.map Prod.fst ++ [k] := by
  induction d with
  | nil => simp [dictSet]
  | cons hd tl ih =>
    obtain ⟨k', v'⟩ := hd
    by_cases hk : k = k'
    · subst hk
      simp [dictSet]
    · simp only [dictSet, if_neg hk, List.map_cons, ih, List.mem_cons]
      by_cases hmem : k ∈ tl.map Prod.fst
      · simp [hmem, hk]
      · simp [hmem, hk]

theorem dictDel_sublist {α : Type} (k : String) (d : List (String × α)) :
    (dictDel k d).Sublist d := by
  induction d with
  | nil => simp [dictDel]
  | cons hd tl ih =>
    obtain ⟨k', v'⟩ := hd
    by_cases hk : k = k'
    · simp only [dictDel, if_pos hk]
      exact List.sublist_cons_self (k', v') tl
    · simpa [dictDel, hk] using ih.cons₂ (k', v')

theorem dictSet_keys_nodup {α : Type} (k : String) (v : α) (d : List (String × α))
    (h : (d.map Prod.fst).Nodup) : ((dictSet k v d).map Prod.fst).Nodup := by
  rw [dictSet_keys]
  by_cases hmem : k ∈ d.map Prod.fst
  · simpa [hmem] using h
  · simp only [hmem, if_false]
    rw [List.nodup_append]
    refine ⟨h, List.nodup_singleton k, ?_⟩
    intro a ha hb
    simp only [List.mem_singleton] at hb
    subst hb
    exact hmem ha

theorem dictDel_keys_nodup {α : Type} (k : String) (d : List (String × α))
    (h : (d.map Prod.fst).Nodup) : ((dictDel k d).map Prod.fst).Nodup :=
  ((dictDel_sublist k d).map Prod.fst).nodup h

theorem dictGet_dictSet_self {α : Type} (k : String) (v : α) (d : List (String × α)) :
    dictGet k (dictSet k v d) = some v := by
  induction d with
  | nil => simp [dictSet, dictGet]
  | cons hd tl ih =>
    obtain ⟨k', v'⟩ := hd
    by_cases hk : k = k' <;> simp [dictSet, dictGet, hk, ih]

theorem dictGet_dictSet_ne {α : Type} (k k' : String) (v : α) (d : List (String × α))
    (h : k ≠ k') : dictGet k (dictSet k' v d) = dictGet k d := by
  induction d with
  | nil => simp [dictSet, dictGet, h]
  | cons hd tl ih =>
    obtain ⟨a, b⟩ := hd
    by_cases ha : k' = a
    · subst ha
      simp [dictSet, dictGet, h, ih]
    · by_cases hb : k = a <;> simp [dictSet, dictGet, ha, hb, ih]

theorem dictGet_eq_none_of_not_mem {α : Type} (k : String) (d : List (String × α))
    (h : k ∉ d.map Prod.fst) : dictGet k d = none := by
  induction d with
  | nil => simp [dictGet]
  | cons hd tl ih =>
    obtain ⟨a, b⟩ := hd
    simp only [List.map_cons, List.mem_cons] at h
    push_neg at h
    simp [dictGet, h.1, ih h.2]

theorem not_mem_dictDel_keys {α : Type} (k : String) (d : List (String × α))
    (h : (d.map Prod.fst).Nodup) : k ∉ (dictDel k d).map Prod.fst := by
  induction d with
  | nil => simp [dictDel]
  | cons hd tl ih =>
    obtain ⟨a, b⟩ := hd
    simp only [List.map_cons, List.nodup_cons] at h
    by_cases hk : k = a
    · subst hk
      simpa [dictDel] using h.1
    · simp only [dictDel, if_neg hk, List.map_cons, List.mem_cons]
      push_neg
      exact ⟨hk, ih h.2⟩

theorem dictGet_dictDel_self {α : Type} (k : String) (d : List (String × α))
    (h : (d.map Prod.fst).Nodup) : dictGet k (dictDel k d) = none :=
  dictGet_eq_none_of_not_mem k _ (not_mem_dictDel_keys k d h)

theorem dictGet_dictDel_ne {α : Type} (k k' : String) (d : List (String × α))
    (h : k ≠ k') : dictGet k (dictDel k' d) = dictGet k d := by
  induction d with
  | nil => simp [dictDel, dictGet]
  | cons hd tl ih =>
    obtain ⟨a, b⟩ := hd
    by_cases ha : k' = a
    · subst ha
      simp [dictDel, dictGet, h, ih]
    · by_cases hb : k = a <;> simp [dictDel, dictGet, ha, hb, ih]

theorem dictCountKey_dictSet_self {α : Type} (k : String) (v : α) (d : List (String × α))
    (h : (d.map Prod.fst).Nodup) : dictCountKey k (dictSet k v d) = 1 := by
  unfold dictCountKey
  rw [dictSet_keys]
  by_cases hmem : k ∈ d.map Prod.fst
  · simpa [hmem] using List.count_eq_one_of_mem h hmem
  · simp [hmem, List.count_eq_zero_of_not_mem hmem]

theorem dictCountKey_dictDel_self {α : Type} (k : String) (d : List (String × α))
    (h : (d.map Prod.fst).Nodup) : dictCountKey k (dictDel k d) = 0 := by
  unfold dictCountKey
  exact List.count_eq_zero_of_not_mem (not_mem_dictDel_keys k d h)

/-! ### Sorting lemmas -/

theorem insertByRating_perm (x : Restaurant) (l : List Restaurant) :
    (insertByRating x l).Perm (x :: l) := by
  induction l with
  | nil => simp [insertByRating]
  | cons y ys ih =>
    by_cases h : ratingKey y ≤ ratingKey x
    · simp [insertByRating, h]
    · simp only [insertByRating, if_neg h]
      exact (ih.cons y).trans (List.Perm.swap x y ys)

theorem sortByRatingDesc_perm (l : List Restaurant) :
    (sortByRatingDesc l).Perm l := by
  induction l with
  | nil => simp [sortByRatingDesc]
  | cons x xs ih =>
    exact (insertByRating_perm x (sortByRatingDesc xs)).trans (ih.cons x)

/-! ### Claim theorems -/

/-- **C5.** For every unknown tool name (any name other than `gmap.search` and
`xhs.search`), dispatching a tool call returns a record with `success = false`
and `error = "Unknown tool: <name>"`, and no exception escapes to the caller
(the embedded function is total and the unknown-name branch consults no
oracle). -/
theorem C5_unknown_tool_dispatch
    (gmapSearch xhsSearch : String → Except String (Option (List JVal)))
    (name : String) (parameters : List (String × String))
    (h1 : name ≠ "gmap.search") (h2 : name ≠ "xhs.search") :
    dispatch_tool_call gmapSearch xhsSearch name parameters =
      { tool := name, inputParams := parameters, output := none,
        success := false, error := some ("Unknown tool: " ++ name) } := by
  simp [dispatch_tool_call, h1, h2]

/-- **C5 witness.** Dispatching the unknown tool `"foo.bar"` yields
`success = false` with error `"Unknown tool: foo.bar"`. -/
theorem C5_unknown_tool_dispatch_witness :
    "foo.bar" ≠ "gmap.search" ∧
    dispatch_tool_call (fun _ => Except.ok none) (fun _ => Except.ok none)
      "foo.bar" [] =
      { tool := "foo.bar", inputParams := [], output := none,
        success := false, error := some "Unknown tool: foo.bar" } :=
  ⟨by decide,
   C5_unknown_tool_dispatch _ _ "foo.bar" [] (by decide) (by decide)⟩

/-- **C4.** For every task, if any exception is raised during background
execution (at any of the five suspension points, the only statements able to
raise), the final record has status `error` with the `error` field set to the
failure description and the message prefixed `Error: `; no partial result is
exposed (`result` is absent); and an exception-free run ends `completed` — so
a task is never left in `processing`. -/
theorem C4_task_error_handling (res : RecResult) (errMsg : String) (k : Fin 5) :
    taskStatus (process_recommendation_task res (some k) errMsg) =
      some (TaskVal.tvStr "error") ∧
    dictGet "error" (process_recommendation_task res (some k) errMsg) =
      some (TaskVal.tvStr errMsg) ∧
    dictGet "message" (process_recommendation_task res (some k) errMsg) =
      some (TaskVal.tvStr ("Error: " ++ errMsg)) ∧
    dictGet "result" (process_recommendation_task res (some k) errMsg) = none ∧
    taskStatus (process_recommendation_task res none errMsg) =
      some (TaskVal.tvStr "completed") := by
  fin_cases k <;> exact ⟨rfl, rfl, rfl, rfl, rfl⟩

theorem task_trace_nonterminal_before_last (taskId : String) (res : RecResult)
    (failAt : Option (Fin 5)) (errMsg : String) (i : Nat)
    (h : i + 1 < (task_observable_trace taskId res failAt errMsg).length) :
    isTerminal ((task_observable_trace taskId res failAt errMsg).getD i []) = false := by
  rcases failAt with _ | k
  · simp [task_observable_trace, processingStates] at h
    replace h : i ≤ 5 := by omega
    interval_cases i <;> rfl
  · fin_cases k
    · simp [task_observable_trace, processingStates] at h
      replace h : i ≤ 1 := by omega
      interval_cases i <;> rfl
    · simp [task_observable_trace, processingStates] at h
      replace h : i ≤ 2 := by omega
      interval_cases i <;> rfl
    · simp [task_observable_trace, processingStates] at h
      replace h : i ≤ 3 := by omega
      interval_cases i <;> rfl
    · simp [task_observable_trace, processingStates] at h
      replace h : i ≤ 4 := by omega
      interval_cases i <;> rfl
    · simp [task_observable_trace, processingStates] at h
      replace h : i ≤ 5 := by omega
      interval_cases i <;> rfl

/-- **C8.** Polling is idempotent and terminal states are stable: in the
observable-state trace of a task, once a state with terminal status
(`completed` or `error`) is reached, every later observable state is the
identical record, and `get_task_status` (a pure dict read) returns exactly
that record — so two successive polls of a completed task return identical
responses and no field is mutated after the terminal status is reached. -/
theorem C8_poll_idempotent_after_terminal (taskId : String) (res : RecResult)
    (failAt : Option (Fin 5)) (errMsg : String) (i j : Nat)
    (hij : i ≤ j) (hj : j < (task_observable_trace taskId res failAt errMsg).length)
    (hterm : isTerminal ((task_observable_trace taskId res failAt errMsg).getD i []) = true) :
    (task_observable_trace taskId res failAt errMsg).getD j [] =
      (task_observable_trace taskId res failAt errMsg).getD i [] ∧
    get_task_status
        (dictSet taskId ((task_observable_trace taskId res failAt errMsg).getD j []) [])
        taskId =
      some ((task_observable_trace taskId res failAt errMsg).getD i []) := by
  have hi : ¬ (i + 1 < (task_observable_trace taskId res failAt errMsg).length) := by
    intro hcon
    rw [task_trace_nonterminal_before_last taskId res failAt errMsg i hcon] at hterm
    exact Bool.false_ne_true hterm
  have hji : j = i := by omega
  subst hji
  exact ⟨rfl, by rw [get_task_status, dictGet_dictSet_self]⟩

/-- **C8 witness.** Concrete successful task: the state at index 6 is
terminal and polling returns it unchanged. -/
theorem C8_poll_idempotent_after_terminal_witness :
    (6 ≤ 6 ∧ 6 < (task_observable_trace "t" ⟨[], 1/2⟩ none "e").length ∧
      isTerminal ((task_observable_trace "t" ⟨[], 1/2⟩ none "e").getD 6 []) = true) ∧
    ((task_observable_trace "t" ⟨[], 1/2⟩ none "e").getD 6 [] =
      (task_observable_trace "t" ⟨[], 1/2⟩ none "e").getD 6 [] ∧
    get_task_status
        (dictSet "t" ((task_observable_trace "t" ⟨[], 1/2⟩ none "e").getD 6 []) [])
        "t" =
      some ((task_observable_trace "t" ⟨[], 1/2⟩ none "e").getD 6 [])) :=
  ⟨⟨le_refl 6, by decide, by decide⟩,
   C8_poll_idempotent_after_terminal "t" ⟨[], 1/2⟩ none "e" 6 6 (le_refl 6)
     (by decide) (by decide)⟩

/-- **C9.** (implicit) When background execution begins, the stored record is
replaced wholesale by a dict holding only `status`, `progress` and `message`:
every observable state with status `processing` lacks the `task_id`, `result`
and `error` keys, all three of which are present in the `pending` record
written by `create_task`. -/
theorem C9_processing_record_drops_keys (taskId : String) (res : RecResult)
    (failAt : Option (Fin 5)) (errMsg : String) :
    (∀ s ∈ task_observable_trace taskId res failAt errMsg,
      taskStatus s = some (TaskVal.tvStr "processing") →
        dictGet "task_id" s = none ∧ dictGet "result" s = none ∧
          dictGet "error" s = none) ∧
    dictGet "task_id" (pendingRecord taskId) = some (TaskVal.tvStr taskId) ∧
    dictGet "result" (pendingRecord taskId) = some TaskVal.tvNull ∧
    dictGet "error" (pendingRecord taskId) = some TaskVal.tvNull := by
  refine ⟨?_, rfl, rfl, rfl⟩
  intro s hs hproc
  rcases failAt with _ | k
  · simp only [task_observable_trace, processingStates, List.cons_append,
      List.nil_append, List.mem_cons, List.not_mem_nil, or_false] at hs
    casesm* _ ∨ _ <;> subst_vars <;>
      first
        | exact ⟨rfl, rfl, rfl⟩
        | exact absurd (Option.some.inj hproc) (by decide)
  · fin_cases k <;>
      simp only [task_observable_trace, processingStates, Fin.isValue, List.take_succ_cons,
        List.take_zero, List.cons_append, List.nil_append, List.mem_cons,
        List.not_mem_nil, or_false] at hs <;>
      casesm* _ ∨ _ <;> subst_vars <;>
      first
        | exact ⟨rfl, rfl, rfl⟩
        | exact absurd (Option.some.inj hproc) (by decide)

/-- **C9 witness.** Concrete task at its first processing checkpoint: status
is `processing` and the `task_id`, `result`, `error` keys are gone, while the
pending record carried all three. -/
theorem C9_processing_record_drops_keys_witness :
    taskStatus ((task_observable_trace "t" ⟨[], 1/2⟩ none "e").getD 1 []) =
      some (TaskVal.tvStr "processing") ∧
    (dictGet "task_id" ((task_observable_trace "t" ⟨[], 1/2⟩ none "e").getD 1 []) = none ∧
     dictGet "result" ((task_observable_trace "t" ⟨[], 1/2⟩ none "e").getD 1 []) = none ∧
     dictGet "error" ((task_observable_trace "t" ⟨[], 1/2⟩ none "e").getD 1 []) = none) :=
  ⟨by decide,
   (C9_processing_record_drops_keys "t" ⟨[], 1/2⟩ none "e").1 _ (by decide) (by decide)⟩

/-! ### Pipeline event-stream lemmas -/

theorem nonDecreasingFrom_append_const (c : Nat) (l rest : List Nat)
    (h : ∀ x ∈ l, x = c) : nonDecreasingFrom c (l ++ rest) = nonDecreasingFrom c rest := by
  induction l with
  | nil => rfl
  | cons a as ih =>
    have ha : a = c := h a (List.mem_cons_self a as)
    show (decide (c ≤ a) && nonDecreasingFrom a (as ++ rest)) = nonDecreasingFrom c rest
    rw [ha, decide_eq_true (le_refl c), Bool.true_and]
    exact ih (fun x hx => h x (List.mem_cons_of_mem _ hx))

theorem stageTailOk_append_inprogress (l rest : List String)
    (h : ∀ x ∈ l, x = "in_progress") : stageTailOk (l ++ rest) = stageTailOk rest := by
  induction l with
  | nil => rfl
  | cons a as ih =>
    have ha : a = "in_progress" := h a (List.mem_cons_self a as)
    subst ha
    have ih' := ih (fun x hx => h x (List.mem_cons_of_mem _ hx))
    cases as with
    | nil =>
      cases rest with
      | nil => rfl
      | cons b bs =>
        show (("in_progress" == "in_progress") && stageTailOk (b :: bs)) = stageTailOk (b :: bs)
        simp
    | cons b bs =>
      show (("in_progress" == "in_progress") && stageTailOk (b :: (bs ++ rest))) =
        stageTailOk rest
      have h3 : (b :: (bs ++ rest)) = ((b :: bs) ++ rest) := rfl
      rw [h3, ih']
      simp

theorem filter_map_eq_nil {α β : Type} (p : β → Bool) (f : α → β) (l : List α)
    (h : ∀ x, p (f x) = false) : (l.map f).filter p = [] := by
  induction l with
  | nil => rfl
  | cons a as ih => simp [h, ih]

theorem filter_map_eq_self {α β : Type} (p : β → Bool) (f : α → β) (l : List α)
    (h : ∀ x, p (f x) = true) : (l.map f).filter p = l.map f := by
  induction l with
  | nil => rfl
  | cons a as ih => simp [h, ih]

theorem filter_flatMap_eq_nil {α β : Type} (p : β → Bool) (f : α → List β) (l : List α)
    (h : ∀ x, (f x).filter p = []) : (l.flatMap f).filter p = [] := by
  induction l with
  | nil => rfl
  | cons a as ih => simp [List.flatMap_cons, List.filter_append, h, ih]

theorem filter_flatMap_eq_self {α β : Type} (p : β → Bool) (f : α → List β) (l : List α)
    (h : ∀ x, (f x).filter p = f x) : (l.flatMap f).filter p = l.flatMap f := by
  induction l with
  | nil => rfl
  | cons a as ih => simp [List.flatMap_cons, List.filter_append, h, ih]


theorem nonDecreasing_one_one_two (M tail : List Nat)
    (hM : ∀ x ∈ M, x = 2) (htail : nonDecreasingFrom 2 tail = true) :
    nonDecreasing (1 :: 1 :: 2 :: (M ++ tail)) = true := by
  show (decide (1 ≤ 1) && (decide (1 ≤ 2) && nonDecreasingFrom 2 (M ++ tail))) = true
  rw [nonDecreasingFrom_append_const 2 _ _ hM, htail]
  rfl

theorem stagePattern_started_block (M tail : List String)
    (hM : ∀ x ∈ M, x = "in_progress") (htail : stageTailOk tail = true) :
    stagePatternOk ("started" :: (M ++ tail)) = true := by
  show (("started" == "started") && stageTailOk (M ++ tail)) = true
  rw [stageTailOk_append_inprogress _ _ hM, htail]
  rfl

/-- **C7 counterexample.** The claim as stated fails on the code: grouping by
`stage_number`, every successful run emits two `completed`-status events for
stage number 3 (the `summary` completion and the extra terminal
`stage="completed"` marker), so stage 3 does not follow
`started → in_progress* → exactly one terminal event`.  Shown on the concrete
offline run with an empty cache.  (Grouping by stage name fails too: the
`"completed"` stage consists of a single `completed` event with no
`started`.) -/
theorem C7_counterexample_double_completed :
    claimC7EventOrdering (execute_offline_agent ⟨none, [], []⟩ none) = false ∧
    statusesOfStageNum (execute_offline_agent ⟨none, [], []⟩ none) 3 =
      ["started", "completed", "completed"] ∧
    statusesOfStage (execute_offline_agent ⟨none, [], []⟩ none) "completed" =
      ["completed"] :=
  ⟨rfl, rfl, rfl⟩

/-- **C7 (amended).** For every pipeline run (online or offline), stage
numbers are non-decreasing across the emitted events, and the three named
stages `planning`, `execution`, `summary` each follow
`started → in_progress* → exactly one terminal completed/error event`; in
addition the run emits a terminal `stage="completed"` marker event (status
`completed`, stage number 3) after a successful summary stage — the claim as
frozen is amended only by accounting for that extra marker event, which gives
stage number 3 a second `completed`-status event. -/
theorem C7_pipeline_event_ordering_amended
    (cached : CachedRun) (summaryCache : Option String)
    (planner : Except String (List PlanCall))
    (gmapSearch xhsSearch : String → Except String (Option (List JVal)))
    (summarizer : Except String (Option String)) :
    pipelineEventsWellFormed (execute_offline_agent cached summaryCache) ∧
    pipelineEventsWellFormed (execute_online_agent planner gmapSearch xhsSearch summarizer) := by
  constructor
  · -- offline run
    have hM : ∀ x ∈ ((List.enumFrom 1 cached.executions).map
        (offlineExecEvent cached.executions.length)).map (fun e => e.status),
        x = "in_progress" := by
      intro x hx
      rcases List.mem_map.mp hx with ⟨e, he, rfl⟩
      rcases List.mem_map.mp he with ⟨p, hp, rfl⟩
      rfl
    refine ⟨?_, ?_, ?_, ?_, ?_⟩
    · have hmap : (execute_offline_agent cached summaryCache).map (fun e => e.stageNumber) =
          1 :: 1 :: 2 :: (((List.enumFrom 1 cached.executions).map
            (offlineExecEvent cached.executions.length)).map (fun e => e.stageNumber) ++
            [2, 3, 3, 3]) := by
        simp only [execute_offline_agent, List.map_cons, List.map_append]
        rfl
      rw [hmap]
      refine nonDecreasing_one_one_two _ _ ?_ rfl
      intro x hx
      rcases List.mem_map.mp hx with ⟨e, he, rfl⟩
      rcases List.mem_map.mp he with ⟨p, hp, rfl⟩
      rfl
    · have hfilter : statusesOfStage (execute_offline_agent cached summaryCache) "planning" =
          ["started", "completed"] := by
        simp only [statusesOfStage, execute_offline_agent]
        rw [List.filter_cons_of_pos (by rfl), List.filter_cons_of_pos (by rfl),
          List.filter_cons_of_neg (by simp), List.filter_append,
          filter_map_eq_nil _ _ _ (fun p => rfl)]
        rfl
      rw [hfilter]
      rfl
    · have hfilter : statusesOfStage (execute_offline_agent cached summaryCache) "execution" =
          "started" :: (((List.enumFrom 1 cached.executions).map
            (offlineExecEvent cached.executions.length)).map (fun e => e.status) ++
            ["completed"]) := by
        simp only [statusesOfStage, execute_offline_agent]
        rw [List.filter_cons_of_neg (by simp), List.filter_cons_of_neg (by simp),
          List.filter_cons_of_pos (by rfl), List.filter_append,
          filter_map_eq_self _ _ _ (fun p => rfl)]
        simp only [List.map_cons, List.map_append]
        rfl
      rw [hfilter]
      exact stagePattern_started_block _ _ hM rfl
    · have hfilter : statusesOfStage (execute_offline_agent cached summaryCache) "summary" =
          ["started", "completed"] := by
        simp only [statusesOfStage, execute_offline_agent]
        rw [List.filter_cons_of_neg (by simp), List.filter_cons_of_neg (by simp),
          List.filter_cons_of_neg (by simp), List.filter_append,
          filter_map_eq_nil _ _ _ (fun p => rfl)]
        rfl
      rw [hfilter]
      rfl
    · have hfilter : (execute_offline_agent cached summaryCache).filter
          (fun e => e.stage == "completed") =
          [{ stage := "completed", stageNumber := 3, status := "completed",
             message := "All stages completed" }] := by
        simp only [execute_offline_agent]
        rw [List.filter_cons_of_neg (by simp), List.filter_cons_of_neg (by simp),
          List.filter_cons_of_neg (by simp), List.filter_append,
          filter_map_eq_nil _ _ _ (fun p => rfl)]
        rfl
      rw [hfilter]
      rfl
  · -- online run
    rcases planner with e | planCalls
    · exact ⟨rfl, rfl, rfl, rfl, rfl⟩
    · have hblock : ∀ p, ∀ ev ∈ onlineCallEvents gmapSearch xhsSearch planCalls.length p,
          ev.stage = "execution" ∧ ev.stageNumber = 2 ∧ ev.status = "in_progress" := by
        intro p ev hev
        simp only [onlineCallEvents, List.mem_cons, List.not_mem_nil, or_false] at hev
        rcases hev with rfl | rfl
        · exact ⟨rfl, rfl, rfl⟩
        · exact ⟨rfl, rfl, rfl⟩
      have hMst : ∀ x ∈ ((List.enumFrom 1 planCalls).flatMap
          (onlineCallEvents gmapSearch xhsSearch planCalls.length)).map (fun e => e.status),
          x = "in_progress" := by
        intro x hx
        rcases List.mem_map.mp hx with ⟨ev, hev, rfl⟩
        rcases List.mem_flatMap.mp hev with ⟨p, hp, hmem⟩
        exact (hblock p ev hmem).2.2
      have hMnum : ∀ x ∈ ((List.enumFrom 1 planCalls).flatMap
          (onlineCallEvents gmapSearch xhsSearch planCalls.length)).map
            (fun e => e.stageNumber), x = 2 := by
        intro x hx
        rcases List.mem_map.mp hx with ⟨ev, hev, rfl⟩
        rcases List.mem_flatMap.mp hev with ⟨p, hp, hmem⟩
        exact (hblock p ev hmem).2.1
      rcases summarizer with es | s
      · refine ⟨?_, ?_, ?_, ?_, ?_⟩
        · have hmap : (execute_online_agent (Except.ok planCalls) gmapSearch xhsSearch
              (Except.error es)).map (fun e => e.stageNumber) =
              1 :: 1 :: 2 :: (((List.enumFrom 1 planCalls).flatMap
                (onlineCallEvents gmapSearch xhsSearch planCalls.length)).map
                  (fun e => e.stageNumber) ++ [2, 3, 3]) := by
            simp only [execute_online_agent, List.map_cons, List.map_append]
            rfl
          rw [hmap]
          exact nonDecreasing_one_one_two _ _ hMnum rfl
        · have hfilter : statusesOfStage (execute_online_agent (Except.ok planCalls)
              gmapSearch xhsSearch (Except.error es)) "planning" =
              ["started", "completed"] := by
            simp only [statusesOfStage, execute_online_agent]
            rw [List.filter_cons_of_pos (by rfl), List.filter_cons_of_pos (by rfl),
              List.filter_cons_of_neg (by simp), List.filter_append,
              filter_flatMap_eq_nil (fun (e : PipelineEvent) => e.stage == "planning")
                (onlineCallEvents gmapSearch xhsSearch planCalls.length) _ (fun p => rfl)]
            rfl
          rw [hfilter]
          rfl
        · have hfilter : statusesOfStage (execute_online_agent (Except.ok planCalls)
              gmapSearch xhsSearch (Except.error es)) "execution" =
              "started" :: (((List.enumFrom 1 planCalls).flatMap
                (onlineCallEvents gmapSearch xhsSearch planCalls.length)).map
                  (fun e => e.status) ++ ["completed"]) := by
            simp only [statusesOfStage, execute_online_agent]
            rw [List.filter_cons_of_neg (by simp), List.filter_cons_of_neg (by simp),
              List.filter_cons_of_pos (by rfl), List.filter_append,
              filter_flatMap_eq_self (fun (e : PipelineEvent) => e.stage == "execution")
                (onlineCallEvents gmapSearch xhsSearch planCalls.length) _ (fun p => rfl)]
            simp only [List.map_cons, List.map_append]
            rfl
          rw [hfilter]
          exact stagePattern_started_block _ _ hMst rfl
        · have hfilter : statusesOfStage (execute_online_agent (Except.ok planCalls)
              gmapSearch xhsSearch (Except.error es)) "summary" = ["started", "error"] := by
            simp only [statusesOfStage, execute_online_agent]
            rw [List.filter_cons_of_neg (by simp), List.filter_cons_of_neg (by simp),
              List.filter_cons_of_neg (by simp), List.filter_append,
              filter_flatMap_eq_nil (fun (e : PipelineEvent) => e.stage == "summary")
                (onlineCallEvents gmapSearch xhsSearch planCalls.length) _ (fun p => rfl)]
            rfl
          rw [hfilter]
          rfl
        · have hfilter : (execute_online_agent (Except.ok planCalls) gmapSearch xhsSearch
              (Except.error es)).filter (fun e => e.stage == "completed") = [] := by
            simp only [execute_online_agent]
            rw [List.filter_cons_of_neg (by simp), List.filter_cons_of_neg (by simp),
              List.filter_cons_of_neg (by simp), List.filter_append,
              filter_flatMap_eq_nil (fun (e : PipelineEvent) => e.stage == "completed")
                (onlineCallEvents gmapSearch xhsSearch planCalls.length) _ (fun p => rfl)]
            rfl
          rw [hfilter]
          rfl
      · refine ⟨?_, ?_, ?_, ?_, ?_⟩
        · have hmap : (execute_online_agent (Except.ok planCalls) gmapSearch xhsSearch
              (Except.ok s)).map (fun e => e.stageNumber) =
              1 :: 1 :: 2 :: (((List.enumFrom 1 planCalls).flatMap
                (onlineCallEvents gmapSearch xhsSearch planCalls.length)).map
                  (fun e => e.stageNumber) ++ [2, 3, 3, 3]) := by
            simp only [execute_online_agent, List.map_cons, List.map_append]
            rfl
          rw [hmap]
          exact nonDecreasing_one_one_two _ _ hMnum rfl
        · have hfilter : statusesOfStage (execute_online_agent (Except.ok planCalls)
              gmapSearch xhsSearch (Except.ok s)) "planning" = ["started", "completed"] := by
            simp only [statusesOfStage, execute_online_agent]
            rw [List.filter_cons_of_pos (by rfl), List.filter_cons_of_pos (by rfl),
              List.filter_cons_of_neg (by simp), List.filter_append,
              filter_flatMap_eq_nil (fun (e : PipelineEvent) => e.stage == "planning")
                (onlineCallEvents gmapSearch xhsSearch planCalls.length) _ (fun p => rfl)]
            rfl
          rw [hfilter]
          rfl
        · have hfilter : statusesOfStage (execute_online_agent (Except.ok planCalls)
              gmapSearch xhsSearch (Except.ok s)) "execution" =
              "started" :: (((List.enumFrom 1 planCalls).flatMap
                (onlineCallEvents gmapSearch xhsSearch planCalls.length)).map
                  (fun e => e.status) ++ ["completed"]) := by
            simp only [statusesOfStage, execute_online_agent]
            rw [List.filter_cons_of_neg (by simp), List.filter_cons_of_neg (by simp),
              List.filter_cons_of_pos (by rfl), List.filter_append,
              filter_flatMap_eq_self (fun (e : PipelineEvent) => e.stage == "execution")
                (onlineCallEvents gmapSearch xhsSearch planCalls.length) _ (fun p => rfl)]
            simp only [List.map_cons, List.map_append]
            rfl
          rw [hfilter]
          exact stagePattern_started_block _ _ hMst rfl
        · have hfilter : statusesOfStage (execute_online_agent (Except.ok planCalls)
              gmapSearch xhsSearch (Except.ok s)) "summary" = ["started", "completed"] := by
            simp only [statusesOfStage, execute_online_agent]
            rw [List.filter_cons_of_neg (by simp), List.filter_cons_of_neg (by simp),
              List.filter_cons_of_neg (by simp), List.filter_append,
              filter_flatMap_eq_nil (fun (e : PipelineEvent) => e.stage == "summary")
                (onlineCallEvents gmapSearch xhsSearch planCalls.length) _ (fun p => rfl)]
            rfl
          rw [hfilter]
          rfl
        · have hfilter : (execute_online_agent (Except.ok planCalls) gmapSearch xhsSearch
              (Except.ok s)).filter (fun e => e.stage == "completed") =
              [{ stage := "completed", stageNumber := 3, status := "completed",
                 message := "All stages completed" }] := by
            simp only [execute_online_agent]
            rw [List.filter_cons_of_neg (by simp), List.filter_cons_of_neg (by simp),
              List.filter_cons_of_neg (by simp), List.filter_append,
              filter_flatMap_eq_nil (fun (e : PipelineEvent) => e.stage == "completed")
                (onlineCallEvents gmapSearch xhsSearch planCalls.length) _ (fun p => rfl)]
            rfl
          rw [hfilter]
          rfl

/-! ### Intent analysis lemmas -/

theorem buildFromJson_intent (flow : Bool) (language : String)
    (obj : List (String × JVal)) (r : LLMResponse)
    (h : buildFromJson flow language obj = Except.ok r) :
    r.intent = validateIntent flow (rawIntentOf obj) := by
  simp only [buildFromJson] at h
  cases h1 : extractPreferences (validateIntent flow (rawIntentOf obj)) obj with
  | error e => rw [h1] at h; exact absurd h (by simp)
  | ok p =>
    rw [h1] at h
    cases h2 : extractProfileUpdates obj with
    | error e => rw [h2] at h; exact absurd h (by simp)
    | ok pu =>
      rw [h2] at h
      cases h3 : extractReply obj language with
      | error e => rw [h3] at h; exact absurd h (by simp)
      | ok rep =>
        rw [h3] at h
        cases h4 : extractConfidence obj with
        | error e => rw [h4] at h; exact absurd h (by simp)
        | ok conf =>
          rw [h4] at h
          rw [← Except.ok.inj h]

theorem validateIntent_mem (flow : Bool) (intent : String) :
    validateIntent flow intent ∈ legalIntents flow := by
  unfold validateIntent
  by_cases h : intent ∈ legalIntents flow
  · rw [if_pos h]
    exact h
  · simp only [h, if_false]
    cases flow <;> simp [legalIntents]

theorem chat_mem_legalIntents (flow : Bool) : "chat" ∈ legalIntents flow := by
  cases flow <;> simp [legalIntents]

theorem keywordFallback_intent (language content : String) :
    (keywordFallbackResponse language content).intent = "query" ∨
    (keywordFallbackResponse language content).intent = "chat" := by
  by_cases h : ((if language = "zh" then queryKeywordsZh else queryKeywordsEn).any
      (fun kw => strContains (toLowerStr content) kw))
  · left
    simp [keywordFallbackResponse, h]
  · right
    simp [keywordFallbackResponse, h]

/-- **C6.** For every classifier JSON response and every conversation state,
an intent outside the legal set for the state (`query`/`chat` at START;
`confirmation_yes`/`confirmation_no`/`query`/`chat` in the confirmation flow)
is coerced to the safe default `"chat"`; moreover every response
`analyze_user_message` returns — through any branch, including the error
fallbacks — carries an intent in the legal set, never an error. -/
theorem C6_illegal_intent_coerced (jsonLoads : String → Option JVal) (message : String)
    (history : List ChatMsg) (isInQueryFlow : Bool) (content : String)
    (fields : List (String × JVal))
    (hc : jsonLoads content = some (JVal.jObj fields))
    (hbad : rawIntentOf fields ∉ legalIntents isInQueryFlow) :
    (analyze_user_message jsonLoads message history isInQueryFlow
      (Except.ok content)).intent = "chat" ∧
    ∀ api, (analyze_user_message jsonLoads message history isInQueryFlow api).intent
      ∈ legalIntents isInQueryFlow := by
  constructor
  · simp only [analyze_user_message, hc]
    cases hb : buildFromJson isInQueryFlow (detectLanguageWithHistory message history) fields with
    | ok r =>
      show r.intent = "chat"
      rw [buildFromJson_intent _ _ _ _ hb]
      unfold validateIntent
      simp [hbad]
    | error e => rfl
  · intro api
    cases api with
    | error e => exact chat_mem_legalIntents isInQueryFlow
    | ok c =>
      simp only [analyze_user_message]
      cases hj : jsonLoads c with
      | none =>
        rcases keywordFallback_intent (detectLanguageWithHistory message history) c with h | h <;>
          rw [h]
        · cases isInQueryFlow <;> simp [legalIntents]
        · exact chat_mem_legalIntents isInQueryFlow
      | some v =>
        cases v with
        | jObj fields2 =>
          show (match buildFromJson isInQueryFlow
              (detectLanguageWithHistory message history) fields2 with
            | Except.ok r => r
            | Except.error _ =>
                apiErrorResponse (detectLanguageWithHistory message history)).intent
            ∈ legalIntents isInQueryFlow
          cases hb : buildFromJson isInQueryFlow
              (detectLanguageWithHistory message history) fields2 with
          | ok r =>
            show r.intent ∈ legalIntents isInQueryFlow
            rw [buildFromJson_intent _ _ _ _ hb]
            exact validateIntent_mem _ _
          | error e => exact chat_mem_legalIntents isInQueryFlow
        | jNull => exact chat_mem_legalIntents isInQueryFlow
        | jBool b => exact chat_mem_legalIntents isInQueryFlow
        | jNum q => exact chat_mem_legalIntents isInQueryFlow
        | jStr s => exact chat_mem_legalIntents isInQueryFlow
        | jArr l => exact chat_mem_legalIntents isInQueryFlow

/-- **C6 witness.** A classifier answer with the illegal intent `"banana"` at
START is coerced to `"chat"`. -/
theorem C6_illegal_intent_coerced_witness :
    ((fun _ => some (JVal.jObj [("intent", JVal.jStr "banana")])) "x" =
      some (JVal.jObj [("intent", JVal.jStr "banana")]) ∧
     rawIntentOf [("intent", JVal.jStr "banana")] ∉ legalIntents false) ∧
    (analyze_user_message (fun _ => some (JVal.jObj [("intent", JVal.jStr "banana")]))
      "hi" [] false (Except.ok "x")).intent = "chat" :=
  ⟨⟨rfl, by decide⟩,
   (C6_illegal_intent_coerced (fun _ => some (JVal.jObj [("intent", JVal.jStr "banana")]))
     "hi" [] false "x" [("intent", JVal.jStr "banana")] rfl (by decide)).1⟩

/-- **C10.** (implicit) `analyze_user_message` is total at its boundary: every
branch returns an `LLMResponse` (the embedding is a total function).  When the
LLM API call raises, the result is intent `"chat"` with the apology reply and
confidence 0.3; when the model's output fails JSON parsing, the result falls
back to keyword matching over the raw reply text, choosing between `"query"`
and `"chat"` and echoing the text as the reply. -/
theorem C10_analyze_total_fallbacks (jsonLoads : String → Option JVal) (message : String)
    (history : List ChatMsg) (isInQueryFlow : Bool) (apiErr content : String)
    (hjson : jsonLoads content = none) :
    analyze_user_message jsonLoads message history isInQueryFlow (Except.error apiErr) =
      apiErrorResponse (detectLanguageWithHistory message history) ∧
    (apiErrorResponse (detectLanguageWithHistory message history)).intent = "chat" ∧
    (apiErrorResponse (detectLanguageWithHistory message history)).confidence = 3/10 ∧
    (apiErrorResponse (detectLanguageWithHistory message history)).reply =
      apiErrorReply (detectLanguageWithHistory message history) ∧
    analyze_user_message jsonLoads message history isInQueryFlow (Except.ok content) =
      keywordFallbackResponse (detectLanguageWithHistory message history) content ∧
    (keywordFallbackResponse (detectLanguageWithHistory message history) content).reply =
      content ∧
    ((keywordFallbackResponse (detectLanguageWithHistory message history) content).intent =
        "query" ∨
     (keywordFallbackResponse (detectLanguageWithHistory message history) content).intent =
        "chat") := by
  refine ⟨rfl, rfl, rfl, rfl, ?_, rfl, keywordFallback_intent _ _⟩
  simp only [analyze_user_message, hjson]

/-- **C10 witness.** A failing API call yields the 0.3-confidence chat
apology, and an unparseable reply falls back to keyword matching. -/
theorem C10_analyze_total_fallbacks_witness :
    ((fun _ => (none : Option JVal)) "not json" = none) ∧
    analyze_user_message (fun _ => none) "hi" [] false (Except.error "boom") =
      apiErrorResponse (detectLanguageWithHistory "hi" []) ∧
    analyze_user_message (fun _ => none) "hi" [] false (Except.ok "not json") =
      keywordFallbackResponse (detectLanguageWithHistory "hi" []) "not json" :=
  ⟨rfl,
   (C10_analyze_total_fallbacks (fun _ => none) "hi" [] false "boom" "not json" rfl).1,
   (C10_analyze_total_fallbacks (fun _ => none) "hi" [] false "boom" "not json" rfl).2.2.2.2.1⟩

/-- **C1.** A `ConversationContext` entry exists for a user iff the user is in
AWAITING_CONFIRMATION — in the source that state *is* entry presence
(`is_in_query_flow = user_id in self.user_contexts`), so the claim's content
is the transition behavior, proved here: key-uniqueness of the context map is
preserved (never two entries for one user) and other users are untouched;
from AWAITING_CONFIRMATION, a confirm intent, a reject-without-new-preferences
intent (`confirmation_no`) and a chat intent all delete the user's entry
(returning to START), while a reject-with-new-preferences intent (`query`)
overwrites the entry in place, leaving exactly one entry; from START, a query
intent creates exactly one entry and any other intent leaves none. -/
theorem C1_context_lifecycle
    (st : ServiceState) (userId query : String) (userProfile : Option UserProfile)
    (llmIntent : String) (llmPrefs : Option Prefs) (llmReply genMsg : String)
    (hnodup : (st.userContexts.map Prod.fst).Nodup) :
    (((handle_user_request_async st userId query userProfile llmIntent llmPrefs llmReply
        genMsg).1.userContexts.map Prod.fst).Nodup) ∧
    (∀ u, u ≠ userId →
      dictGet u (handle_user_request_async st userId query userProfile llmIntent llmPrefs
        llmReply genMsg).1.userContexts = dictGet u st.userContexts) ∧
    ((dictGet userId st.userContexts).isSome = true →
      (llmIntent = "confirmation_yes" →
        dictGet userId (handle_user_request_async st userId query userProfile llmIntent
          llmPrefs llmReply genMsg).1.userContexts = none) ∧
      (llmIntent = "confirmation_no" →
        dictGet userId (handle_user_request_async st userId query userProfile llmIntent
          llmPrefs llmReply genMsg).1.userContexts = none) ∧
      (llmIntent = "chat" →
        dictGet userId (handle_user_request_async st userId query userProfile llmIntent
          llmPrefs llmReply genMsg).1.userContexts = none) ∧
      (llmIntent = "query" →
        dictCountKey userId (handle_user_request_async st userId query userProfile llmIntent
          llmPrefs llmReply genMsg).1.userContexts = 1)) ∧
    ((dictGet userId st.userContexts).isSome = false →
      (llmIntent = "query" →
        dictCountKey userId (handle_user_request_async st userId query userProfile llmIntent
          llmPrefs llmReply genMsg).1.userContexts = 1) ∧
      (llmIntent ≠ "query" →
        dictGet userId (handle_user_request_async st userId query userProfile llmIntent
          llmPrefs llmReply genMsg).1.userContexts = none)) := by
  cases hctx : dictGet userId st.userContexts with
  | some c =>
    have hstart : ¬ ((some c : Option ConversationContext).isSome = false) := by simp
    by_cases h1 : llmIntent = "confirmation_yes"
    · subst h1
      have hout : (handle_user_request_async st userId query userProfile "confirmation_yes"
          llmPrefs llmReply genMsg).1.userContexts = dictDel userId st.userContexts := by
        simp [handle_user_request_async, hctx]
      rw [hout]
      refine ⟨dictDel_keys_nodup _ _ hnodup,
        fun u hu => dictGet_dictDel_ne u userId _ hu,
        fun _ => ⟨fun _ => dictGet_dictDel_self _ _ hnodup,
          fun h => absurd h (by decide), fun h => absurd h (by decide),
          fun h => absurd h (by decide)⟩,
        fun habs => absurd (hctx ▸ habs) hstart⟩
    · by_cases h2 : llmIntent = "confirmation_no"
      · subst h2
        have hout : (handle_user_request_async st userId query userProfile "confirmation_no"
            llmPrefs llmReply genMsg).1.userContexts = dictDel userId st.userContexts := by
          simp [handle_user_request_async, hctx]
        rw [hout]
        refine ⟨dictDel_keys_nodup _ _ hnodup,
          fun u hu => dictGet_dictDel_ne u userId _ hu,
          fun _ => ⟨fun h => absurd h (by decide),
            fun _ => dictGet_dictDel_self _ _ hnodup,
            fun h => absurd h (by decide), fun h => absurd h (by decide)⟩,
          fun habs => absurd (hctx ▸ habs) hstart⟩
      · by_cases h3 : llmIntent = "query"
        · subst h3
          cases llmPrefs with
          | some lp =>
            have hout : (handle_user_request_async st userId query userProfile "query"
                (some lp) llmReply genMsg).1.userContexts =
                dictSet userId ⟨fillFromProfile lp userProfile, c.originalQuery, genMsg⟩
                  st.userContexts := by
              simp [handle_user_request_async, hctx]
            rw [hout]
            refine ⟨dictSet_keys_nodup _ _ _ hnodup,
              fun u hu => dictGet_dictSet_ne u userId _ _ hu,
              fun _ => ⟨fun h => absurd h (by decide), fun h => absurd h (by decide),
                fun h => absurd h (by decide),
                fun _ => dictCountKey_dictSet_self _ _ _ hnodup⟩,
              fun habs => absurd (hctx ▸ habs) hstart⟩
          | none =>
            have hout : (handle_user_request_async st userId query userProfile "query"
                none llmReply genMsg).1.userContexts =
                dictSet userId
                  ⟨(extract_preferences_service st.userPreferences userId query).1,
                    c.originalQuery, genMsg⟩ st.userContexts := by
              simp [handle_user_request_async, hctx]
            rw [hout]
            refine ⟨dictSet_keys_nodup _ _ _ hnodup,
              fun u hu => dictGet_dictSet_ne u userId _ _ hu,
              fun _ => ⟨fun h => absurd h (by decide), fun h => absurd h (by decide),
                fun h => absurd h (by decide),
                fun _ => dictCountKey_dictSet_self _ _ _ hnodup⟩,
              fun habs => absurd (hctx ▸ habs) hstart⟩
        · by_cases h4 : llmIntent = "chat"
          · subst h4
            have hout : (handle_user_request_async st userId query userProfile "chat"
                llmPrefs llmReply genMsg).1.userContexts = dictDel userId st.userContexts := by
              simp [handle_user_request_async, hctx]
            rw [hout]
            refine ⟨dictDel_keys_nodup _ _ hnodup,
              fun u hu => dictGet_dictDel_ne u userId _ hu,
              fun _ => ⟨fun h => absurd h (by decide), fun h => absurd h (by decide),
                fun _ => dictGet_dictDel_self _ _ hnodup,
                fun h => absurd h (by decide)⟩,
              fun habs => absurd (hctx ▸ habs) hstart⟩
          · have hout : (handle_user_request_async st userId query userProfile llmIntent
                llmPrefs llmReply genMsg).1.userContexts = st.userContexts := by
              simp [handle_user_request_async, hctx, h1, h2, h3, h4]
            rw [hout]
            exact ⟨hnodup, fun u _ => rfl,
              fun _ => ⟨fun h => absurd h h1, fun h => absurd h h2,
                fun h => absurd h h4, fun h => absurd h h3⟩,
              fun habs => absurd (hctx ▸ habs) hstart⟩
  | none =>
    have hflow : ¬ ((none : Option ConversationContext).isSome = true) := by simp
    by_cases h3 : llmIntent = "query"
    · subst h3
      cases llmPrefs with
      | some lp =>
        have hout : (handle_user_request_async st userId query userProfile "query"
            (some lp) llmReply genMsg).1.userContexts =
            dictSet userId ⟨fillFromProfile lp userProfile, query, genMsg⟩
              st.userContexts := by
          simp [handle_user_request_async, hctx]
        rw [hout]
        refine ⟨dictSet_keys_nodup _ _ _ hnodup,
          fun u hu => dictGet_dictSet_ne u userId _ _ hu,
          fun habs => absurd (hctx ▸ habs) hflow,
          fun _ => ⟨fun _ => dictCountKey_dictSet_self _ _ _ hnodup,
            fun h => absurd rfl h⟩⟩
      | none =>
        have hout : (handle_user_request_async st userId query userProfile "query"
            none llmReply genMsg).1.userContexts =
            dictSet userId
              ⟨(extract_preferences_service st.userPreferences userId query).1,
                query, genMsg⟩ st.userContexts := by
          simp [handle_user_request_async, hctx]
        rw [hout]
        refine ⟨dictSet_keys_nodup _ _ _ hnodup,
          fun u hu => dictGet_dictSet_ne u userId _ _ hu,
          fun habs => absurd (hctx ▸ habs) hflow,
          fun _ => ⟨fun _ => dictCountKey_dictSet_self _ _ _ hnodup,
            fun h => absurd rfl h⟩⟩
    · have hout : (handle_user_request_async st userId query userProfile llmIntent
          llmPrefs llmReply genMsg).1.userContexts = st.userContexts := by
        simp [handle_user_request_async, hctx, h3]
      rw [hout]
      exact ⟨hnodup, fun u _ => rfl,
        fun habs => absurd (hctx ▸ habs) hflow,
        fun _ => ⟨fun h => absurd h h3, fun _ => hctx⟩⟩

/-- **C1 witness.** For a user awaiting confirmation, processing a
`confirmation_yes` intent deletes the context entry. -/
theorem C1_context_lifecycle_witness :
    ((exampleAwaitingState.userContexts.map Prod.fst).Nodup ∧
      (dictGet "u" exampleAwaitingState.userContexts).isSome = true) ∧
    dictGet "u" (handle_user_request_async exampleAwaitingState "u" "yes" none
      "confirmation_yes" none "r" "m").1.userContexts = none :=
  ⟨⟨by decide, by rfl⟩,
   ((C1_context_lifecycle exampleAwaitingState "u" "yes" none "confirmation_yes" none
      "r" "m" (by decide)).2.2.1 (by rfl)).1 rfl⟩

/-- **C2 counterexample.** The filters are not individually non-destructive:
with four Orchard restaurants and a Chinatown location preference, the
location filter eliminates every candidate; the code then falls back to the
first 3 unfiltered entries, whereas the claim's per-filter-fallback pipeline
(which would skip the destructive location filter) keeps all 4 — the two
disagree, so the claim, as stated, is false on this input. -/
theorem C2_counterexample_destructive_filter :
    locationFilter c2Prefs.location c2Restaurants = [] ∧
    filter_restaurants id "dinner" c2Prefs c2Restaurants ≠
      filter_restaurants_claimC2 id "dinner" c2Prefs c2Restaurants ∧
    (filter_restaurants id "dinner" c2Prefs c2Restaurants).length = 3 ∧
    (filter_restaurants_claimC2 id "dinner" c2Prefs c2Restaurants).length = 4 :=
  ⟨rfl, by decide, rfl, rfl⟩

/-- **C2 (amended).** The four filters are applied unconditionally in
sequence (each one may eliminate all remaining candidates); the only fallback
is final: when the composed filters eliminate every candidate, the result is
a permutation of the first 3 unfiltered entries; when something survives,
every returned restaurant passed all four filters; and the result is nonempty
whenever the input list is nonempty. -/
theorem C2_filter_fallback_amended (shuffle : List Restaurant → List Restaurant)
    (query : String) (p : Prefs) (restaurants : List Restaurant)
    (hshuffle : ∀ l, (shuffle l).Perm l) :
    (applyFilters query p restaurants = [] →
      (filter_restaurants shuffle query p restaurants).Perm (restaurants.take 3)) ∧
    (applyFilters query p restaurants ≠ [] →
      ∀ r ∈ filter_restaurants shuffle query p restaurants,
        r ∈ applyFilters query p restaurants) ∧
    (restaurants ≠ [] → filter_restaurants shuffle query p restaurants ≠ []) := by
  have hA : applyFilters query p restaurants = [] →
      (filter_restaurants shuffle query p restaurants).Perm (restaurants.take 3) := by
    intro hempty
    have hlen : (sortByRatingDesc (restaurants.take 3)).length =
        (restaurants.take 3).length := (sortByRatingDesc_perm _).length_eq
    have hle : (restaurants.take 3).length ≤ 3 := by
      rw [List.length_take]
      exact min_le_left _ _
    have hcond : ¬ (6 < (sortByRatingDesc (restaurants.take 3)).length) := by omega
    simp only [filter_restaurants, hempty, List.isEmpty_nil, if_true, hcond, if_false]
    rw [List.take_of_length_le (by omega)]
    exact sortByRatingDesc_perm _
  have hB : applyFilters query p restaurants ≠ [] →
      ∀ r ∈ filter_restaurants shuffle query p restaurants,
        r ∈ applyFilters query p restaurants := by
    intro hne r hr
    have hie : (applyFilters query p restaurants).isEmpty = false := by
      cases happ : applyFilters query p restaurants with
      | nil => exact absurd happ hne
      | cons a l => rfl
    have hperm := sortByRatingDesc_perm (applyFilters query p restaurants)
    by_cases hbig : 6 < (sortByRatingDesc (applyFilters query p restaurants)).length
    · have hres : filter_restaurants shuffle query p restaurants =
          (sortByRatingDesc (applyFilters query p restaurants)).take 3 ++
          (shuffle ((sortByRatingDesc (applyFilters query p restaurants)).drop 3)).take 3 := by
        simp only [filter_restaurants, hie, Bool.false_eq_true, if_false, hbig, if_true]
      rw [hres] at hr
      rcases List.mem_append.mp hr with h1 | h1
      · exact hperm.subset (List.take_subset _ _ h1)
      · exact hperm.subset
          (List.drop_subset _ _ ((hshuffle _).subset (List.take_subset _ _ h1)))
    · have hres : filter_restaurants shuffle query p restaurants =
          (sortByRatingDesc (applyFilters query p restaurants)).take 6 := by
        simp only [filter_restaurants, hie, Bool.false_eq_true, if_false, hbig, if_true]
      rw [hres] at hr
      exact hperm.subset (List.take_subset _ _ hr)
  refine ⟨hA, hB, ?_⟩
  intro hrs hnil
  have hpos : 0 < restaurants.length := List.length_pos.mpr hrs
  by_cases hempty : applyFilters query p restaurants = []
  · have hlen := (hA hempty).length_eq
    rw [hnil] at hlen
    simp only [List.length_nil, List.length_take] at hlen
    omega
  · have hie : (applyFilters query p restaurants).isEmpty = false := by
      cases happ : applyFilters query p restaurants with
      | nil => exact absurd happ hempty
      | cons a l => rfl
    have hperm := sortByRatingDesc_perm (applyFilters query p restaurants)
    have hposf : 0 < (applyFilters query p restaurants).length :=
      List.length_pos.mpr hempty
    by_cases hbig : 6 < (sortByRatingDesc (applyFilters query p restaurants)).length
    · have hres : filter_restaurants shuffle query p restaurants =
          (sortByRatingDesc (applyFilters query p restaurants)).take 3 ++
          (shuffle ((sortByRatingDesc (applyFilters query p restaurants)).drop 3)).take 3 := by
        simp only [filter_restaurants, hie, Bool.false_eq_true, if_false, hbig, if_true]
      rw [hnil] at hres
      have := congrArg List.length hres
      simp only [List.length_nil, List.length_append, List.length_take] at this
      omega
    · have hres : filter_restaurants shuffle query p restaurants =
          (sortByRatingDesc (applyFilters query p restaurants)).take 6 := by
        simp only [filter_restaurants, hie, Bool.false_eq_true, if_false, hbig, if_true]
      rw [hnil] at hres
      have := congrArg List.length hres
      simp only [List.length_nil, List.length_take] at this
      have hsl : (sortByRatingDesc (applyFilters query p restaurants)).length =
          (applyFilters query p restaurants).length := hperm.length_eq
      omega

/-- **C2 witness.** On the concrete Orchard/Chinatown scenario the composed
filters are empty and the result is a permutation of (here: equal to) the
first 3 entries. -/
theorem C2_filter_fallback_amended_witness :
    ((∀ l : List Restaurant, (id l).Perm l) ∧
      applyFilters "dinner" c2Prefs c2Restaurants = []) ∧
    (filter_restaurants id "dinner" c2Prefs c2Restaurants).Perm (c2Restaurants.take 3) :=
  ⟨⟨fun l => List.Perm.refl l, by decide⟩,
   (C2_filter_fallback_amended id "dinner" c2Prefs c2Restaurants
     (fun l => List.Perm.refl l)).1 (by decide)⟩

theorem extractBudgetRaw_shape (ql : List Char) (mn mx : Option Nat)
    (h : extractBudgetRaw ql = some (mn, mx)) :
    (∃ n, mn = some n ∧ mx = some (n + 20)) ∨
    (∃ a b, mn = some a ∧ mx = some b ∧
      searchPos matchToRangeAt ql = some (a, b) ∧
      searchPos matchDollarAt ql = none) ∨
    (∃ n, mn = none ∧ mx = some n) := by
  unfold extractBudgetRaw at h
  cases hd : searchPos matchDollarAt ql with
  | some n =>
    rw [hd] at h
    obtain ⟨h1, h2⟩ := Prod.mk.injEq .. ▸ Option.some.inj h
    exact Or.inl ⟨n, h1.symm, h2.symm⟩
  | none =>
    rw [hd] at h
    cases ht : searchPos matchToRangeAt ql with
    | some ab =>
      obtain ⟨x, y⟩ := ab
      rw [ht] at h
      obtain ⟨h1, h2⟩ := Prod.mk.injEq .. ▸ Option.some.inj h
      exact Or.inr (Or.inl ⟨x, y, h1.symm, h2.symm, rfl, rfl⟩)
    | none =>
      rw [ht] at h
      cases hu : searchPos (matchLitNumAt "under".toList) ql with
      | some n =>
        rw [hu] at h
        obtain ⟨h1, h2⟩ := Prod.mk.injEq .. ▸ Option.some.inj h
        exact Or.inr (Or.inr ⟨n, h1.symm, h2.symm⟩)
      | none =>
        rw [hu] at h
        cases ha : searchPos (matchLitNumAt "around".toList) ql with
        | some n =>
          rw [ha] at h
          obtain ⟨h1, h2⟩ := Prod.mk.injEq .. ▸ Option.some.inj h
          exact Or.inl ⟨n, h1.symm, h2.symm⟩
        | none =>
          rw [ha] at h
          cases hb : searchPos (matchLitNumAt "budget".toList) ql with
          | some n =>
            rw [hb] at h
            obtain ⟨h1, h2⟩ := Prod.mk.injEq .. ▸ Option.some.inj h
            exact Or.inl ⟨n, h1.symm, h2.symm⟩
          | none => rw [hb] at h; exact absurd h (by simp)

/-- **C3 counterexample.** The claim fails on the code in both conjuncts: the
rule-based extractor copies an explicit range verbatim, so the query
`"100 to 50"` (with default stored preferences) yields
`budget_range.min = 100 > 50 = budget_range.max`; and the LLM-path validator
(`validated_prefs`) only defaults *absent* keys, so a model answer carrying
`"restaurant_types": null` leaves a top-level null field. -/
theorem C3_counterexample_reversed_range :
    (extract_preferences_from_query "100 to 50" get_default_preferences).budgetRange.min =
      some 100 ∧
    (extract_preferences_from_query "100 to 50" get_default_preferences).budgetRange.max =
      some 50 ∧
    (50 : Nat) < 100 ∧
    dictGet "restaurant_types" (validatedPrefFields [("restaurant_types", JVal.jNull)]) =
      some JVal.jNull :=
  ⟨by decide, by decide, by omega, rfl⟩

/-- **C3 (amended).** For preferences produced by the rule-based
extraction/merge from fully-populated stored preferences (e.g. the defaults)
whose stored budget satisfies `min ≤ max`, every top-level field is populated
(no field is null); and whenever both produced budget bounds are set with
`max < min`, the values were copied verbatim from an explicit reversed
`A to B` range in the query (with the `$`-pattern not matching) — for every
other budget source `min ≤ max` holds. -/
theorem C3_extraction_populated_amended (query : String) (stored : Prefs)
    (hTypes : stored.restaurantTypes ≠ [])
    (hFlavors : stored.flavorProfiles ≠ [])
    (hPurpose : stored.diningPurpose.isSome = true)
    (hLoc : stored.location.isSome = true)
    (hBudget : ∀ a b, stored.budgetRange.min = some a →
      stored.budgetRange.max = some b → a ≤ b) :
    ((extract_preferences_from_query query stored).restaurantTypes ≠ [] ∧
     (extract_preferences_from_query query stored).flavorProfiles ≠ [] ∧
     (extract_preferences_from_query query stored).diningPurpose.isSome = true ∧
     (extract_preferences_from_query query stored).location.isSome = true) ∧
    (∀ a b, (extract_preferences_from_query query stored).budgetRange.min = some a →
      (extract_preferences_from_query query stored).budgetRange.max = some b →
      b < a →
      searchPos matchToRangeAt (query.toList.map Char.toLower) = some (a, b) ∧
      searchPos matchDollarAt (query.toList.map Char.toLower) = none) := by
  constructor
  · refine ⟨?_, ?_, ?_, ?_⟩
    · show (if (List.map Prod.fst (type_keywords.filter _)).isEmpty then
          stored.restaurantTypes else _) ≠ []
      split
      · exact hTypes
      · next he =>
        intro hc
        rw [hc] at he
        exact he rfl
    · show (if (List.map Prod.fst (flavor_keywords.filter _)).isEmpty then
          stored.flavorProfiles else _) ≠ []
      split
      · exact hFlavors
      · next he =>
        intro hc
        rw [hc] at he
        exact he rfl
    · show (match (purpose_keywords.find? _).map Prod.fst with
          | none => stored.diningPurpose
          | some p => some p).isSome = true
      cases (purpose_keywords.find? _).map Prod.fst with
      | none => exact hPurpose
      | some p => rfl
    · show (match (singapore_areas.find? _).map titleCase with
          | none => stored.location
          | some l => some l).isSome = true
      cases (singapore_areas.find? _).map titleCase with
      | none => exact hLoc
      | some l => rfl
  · intro a b hmin hmax hba
    cases hraw : extractBudgetRaw (query.toList.map Char.toLower) with
    | none =>
      have hbr0 : (extract_preferences_from_query query stored).budgetRange =
          (if natFalsy (none : Option Nat) && natFalsy (none : Option Nat) then
            stored.budgetRange else ⟨none, none, "SGD", "person"⟩) := by
        simp only [extract_preferences_from_query, hraw]
      have hbr1 : (extract_preferences_from_query query stored).budgetRange =
          stored.budgetRange := hbr0.trans rfl
      rw [hbr1] at hmin hmax
      exact absurd (hBudget a b hmin hmax) (by omega)
    | some mnmx =>
      have hbr : (extract_preferences_from_query query stored).budgetRange =
          (if natFalsy mnmx.1 && natFalsy mnmx.2 then stored.budgetRange
            else ⟨mnmx.1, mnmx.2, "SGD", "person"⟩) := by
        simp only [extract_preferences_from_query, hraw]
      by_cases hf : (natFalsy mnmx.1 && natFalsy mnmx.2) = true
      · rw [hbr, if_pos hf] at hmin hmax
        exact absurd (hBudget a b hmin hmax) (by omega)
      · rw [hbr, if_neg hf] at hmin hmax
        rcases extractBudgetRaw_shape _ _ _ (by rw [hraw]) with
          ⟨n, h1, h2⟩ | ⟨x, y, h1, h2, h3, h4⟩ | ⟨n, h1, h2⟩
        · rw [h1] at hmin
          rw [h2] at hmax
          have ha' : a = n := by exact Option.some.inj hmin.symm
          have hb' : b = n + 20 := by exact Option.some.inj hmax.symm
          omega
        · rw [h1] at hmin
          rw [h2] at hmax
          have ha' : x = a := Option.some.inj hmin
          have hb' : y = b := Option.some.inj hmax
          rw [ha', hb'] at h3
          exact ⟨h3, h4⟩
        · rw [h1] at hmin
          exact absurd hmin (by simp)

/-- **C3 witness.** The query `"around 30"` over default stored preferences
yields fully-populated preferences. -/
theorem C3_extraction_populated_amended_witness :
    (get_default_preferences.restaurantTypes ≠ [] ∧
     get_default_preferences.flavorProfiles ≠ [] ∧
     get_default_preferences.diningPurpose.isSome = true ∧
     get_default_preferences.location.isSome = true) ∧
    ((extract_preferences_from_query "around 30" get_default_preferences).restaurantTypes ≠ [] ∧
     (extract_preferences_from_query "around 30" get_default_preferences).flavorProfiles ≠ [] ∧
     (extract_preferences_from_query "around 30"
        get_default_preferences).diningPurpose.isSome = true ∧
     (extract_preferences_from_query "around 30"
        get_default_preferences).location.isSome = true) :=
  ⟨⟨by decide, by decide, by decide, by decide⟩,
   (C3_extraction_populated_amended "around 30" get_default_preferences
     (by decide) (by decide) (by decide) (by decide)
     (fun a b h1 h2 => by
       simp only [get_default_preferences, Option.some.injEq] at h1 h2
       omega)).1⟩
